import Mathlib

/-!
# mousetrap: a shallow embedding of the wrapper bookkeeping

The repository wraps a native widget toolkit.  The toolkit itself is not part of
the repository, so its objects are modelled by the state they store:

* a raw pointer is `Option Nat` (`none` is `nullptr`, `some a` is the address of
  a live object);
* a toolkit list model (`GListStore`, the column list of a column view) is a
  sequence; the toolkit takes positions, and reports the number of rows of the
  list store, as 32-bit unsigned integers (`guint`), while the wrapper passes
  64-bit indices; a column list has fewer than `2 ^ 32` columns, so its length
  is reported as it is;
* a toolkit property (a boolean flag, the set of css classes) is a stored value;
* calls whose only visible effect is outside the wrapper (`log::critical`,
  `g_object_ref`, `g_object_unref`) are recorded, in program order, in a trace.

Every wrapper function below is a transcription of the C++ function of the same
name.
-/

namespace mousetrap

/-- Raw pointer: `none` is `nullptr`, `some a` is the address `a` of a live object. -/
abbrev Ptr := Option Nat

/-- Calls into the logging module and the toolkit's reference counting, in program order. -/
inductive Call where
  | log_critical (message : String)
  | g_object_ref (object : Ptr)
  | g_object_unref (object : Ptr)
  deriving DecidableEq, Repr

/-! ## `std::map<GtkColumnViewColumn*, GtkWidget*>` -/

/-- Total order used by the map on its pointer keys (`nullptr` first, then by address). -/
def ptr_rank : Ptr → Nat
  | none => 0
  | some a => a + 1

/-- Entries of a `std::map` from column pointers to widget pointers, in iteration order. -/
abbrev StdMap := List (Ptr × Ptr)

/-- Transcription of `std::map::find`: the mapped value, or `none` for `end()`. -/
def StdMap.find : StdMap → Ptr → Option Ptr
  | [], _ => none
  | (k, v) :: rest, key => if k = key then some v else StdMap.find rest key

/-- Transcription of `std::map::insert_or_assign`: overwrite the entry of `key`, or insert a new
entry at its place in key order. -/
def StdMap.insert_or_assign : StdMap → Ptr → Ptr → StdMap
  | [], key, value => [(key, value)]
  | (k, v) :: rest, key, value =>
    if k = key then (key, value) :: rest
    else if ptr_rank key < ptr_rank k then (key, value) :: (k, v) :: rest
    else (k, v) :: StdMap.insert_or_assign rest key value

/-! ## Column view -/

/-- The struct `detail::_ColumnViewRowItem`: one row of the list store with its widget cache. -/
structure ColumnViewRowItem where
  widgets : StdMap
  deriving DecidableEq, Repr

/-- Transcription of `detail::column_view_row_item_new`: a row item with an empty widget map. -/
def column_view_row_item_new : ColumnViewRowItem :=
  { widgets := [] }

/-- A live `GtkColumnViewColumn` of the toolkit: its address and its title. -/
structure GtkColumnViewColumn where
  addr : Nat
  title : String
  deriving DecidableEq, Repr

/-- The wrapper class `ColumnView::Column`, holding the native column pointer. -/
structure Column where
  _native : Ptr
  deriving DecidableEq, Repr

/-- The part of a `Widget` the column view uses: the pointer `operator NativeWidget()` returns. -/
structure Widget where
  native : Ptr
  deriving DecidableEq, Repr

/-- State of a `ColumnView`: the toolkit's column list and separator properties, the list store
of the internal struct, and the trace of logging and reference-count calls made so far. -/
structure ColumnView where
  columns : List GtkColumnViewColumn
  list_store : List ColumnViewRowItem
  show_row_separators : Bool
  show_column_separators : Bool
  trace : List Call
  deriving DecidableEq, Repr

/-- Toolkit function `g_list_model_get_item` on the column list: the address of item `i`, or
`nullptr` when `i` is out of range. -/
def g_list_model_get_item (model : List GtkColumnViewColumn) (i : Nat) : Ptr :=
  (model[i]?).map GtkColumnViewColumn.addr

/-- Transcription of `ColumnView::get_n_columns`. -/
def ColumnView.get_n_columns (self : ColumnView) : Nat :=
  self.columns.length

/-- Toolkit function `g_list_model_get_n_items`: the number of items, as the 32-bit unsigned
integer (`guint`) the toolkit returns. -/
def g_list_model_get_n_items {α : Type} (model : List α) : Nat :=
  model.length % 2 ^ 32

/-- Transcription of `ColumnView::get_n_rows`. -/
def ColumnView.get_n_rows (self : ColumnView) : Nat :=
  g_list_model_get_n_items self.list_store

/-- The loop `while (n_items(model) <= row_i) g_list_store_append(model, row_item_new())` of
`ColumnView::set_widget_at`, where `n_items` is a `guint` and `row_i` a `uint64_t`.  `fuel` bounds
the number of times the loop condition is tested; `none` says that the loop has not exited within
that bound. -/
def append_rows : Nat → Nat → List ColumnViewRowItem → Option (List ColumnViewRowItem)
  | 0, _, _ => none
  | fuel + 1, row_i, model =>
    if g_list_model_get_n_items model ≤ row_i then
      append_rows fuel row_i (model ++ [column_view_row_item_new])
    else some model

/-- The list store the row loop leaves when it exits (`append_rows_eq`): the old rows, followed
by new rows up to index `row_i`. -/
def rows_completed (row_i : Nat) (model : List ColumnViewRowItem) : List ColumnViewRowItem :=
  model ++ List.replicate (row_i + 1 - model.length) column_view_row_item_new

/-- Message logged by `ColumnView::set_widget_at` for a column without native object. -/
def set_widget_at_message : String :=
  "In ColumnView::set_widget: Column does not exist, no insertion will take place"

/-- Transcription of `ColumnView::set_widget_at`.  `fuel` bounds the tests of the row loop.  The
result `none` says that the call has not returned: the loop has not exited within `fuel` tests,
or `g_list_model_get_item`, which takes its position as a `guint`, returned `nullptr` and the
item was dereferenced. -/
def ColumnView.set_widget_at (self : ColumnView) (column : Column) (row_i : Nat)
    (widget : Widget) (fuel : Nat) : Option ColumnView :=
  match column._native with
  | none => some { self with trace := self.trace ++ [Call.log_critical set_widget_at_message] }
  | some _ =>
    match append_rows fuel row_i self.list_store with
    | none => none
    | some model =>
      match model[row_i % 2 ^ 32]? with
      | none => none
      | some item =>
        let released :=
          match item.widgets.find column._native with
          | some old => self.trace ++ [Call.g_object_unref old]
          | none => self.trace
        some
          { self with
            list_store :=
              model.set (row_i % 2 ^ 32)
                { widgets := item.widgets.insert_or_assign column._native widget.native }
            trace := released ++ [Call.g_object_ref widget.native] }

/-- The widget cached for row `row_i` and column pointer `column`: `none` when the row does not
exist or its map has no entry for the column (the lookup of `on_list_item_factory_bind`). -/
def ColumnView.cell (self : ColumnView) (row_i : Nat) (column : Ptr) : Option Ptr :=
  (self.list_store[row_i]?).bind (fun item => item.widgets.find column)

/-- Toolkit setter `gtk_column_view_set_show_row_separators`: stores the value it is handed. -/
def gtk_column_view_set_show_row_separators (self : ColumnView) (value : Bool) : ColumnView :=
  { self with show_row_separators := value }

/-- Toolkit setter `gtk_column_view_set_show_column_separators`: stores the value it is handed. -/
def gtk_column_view_set_show_column_separators (self : ColumnView) (value : Bool) : ColumnView :=
  { self with show_column_separators := value }

/-- Transcription of `ColumnView::set_show_row_separators`: the toolkit setter is called with the
literal `true`. -/
def ColumnView.set_show_row_separators (self : ColumnView) (b : Bool) : ColumnView :=
  gtk_column_view_set_show_row_separators self true

/-- Transcription of `ColumnView::get_show_row_separators`. -/
def ColumnView.get_show_row_separators (self : ColumnView) : Bool :=
  self.show_row_separators

/-- Transcription of `ColumnView::set_show_column_separators`. -/
def ColumnView.set_show_column_separators (self : ColumnView) (b : Bool) : ColumnView :=
  gtk_column_view_set_show_column_separators self b

/-- Transcription of `ColumnView::get_show_column_separators`. -/
def ColumnView.get_show_column_separators (self : ColumnView) : Bool :=
  self.show_column_separators

/-- Message logged by `ColumnView::get_column_at`. -/
def get_column_at_message (column_i n : Nat) : String :=
  "In ColumnView::get_column_at: Index " ++ toString column_i ++
    " out of bounds for a ColumnView with " ++ toString n ++ " columns"

/-- Transcription of `ColumnView::get_column_at`: the returned wrapper and the state after the
call.  `g_list_model_get_item` takes its position as a `guint`, so the 64-bit index is narrowed
to 32 bits in the call. -/
def ColumnView.get_column_at (self : ColumnView) (column_i : Nat) : Column × ColumnView :=
  let model := self.columns
  let after :=
    if column_i > model.length then
      { self with
        trace := self.trace ++ [Call.log_critical (get_column_at_message column_i model.length)] }
    else self
  (Column.mk (g_list_model_get_item model (column_i % 2 ^ 32)), after)

/-- The `for` loop of `ColumnView::get_column_with_title`, entered with loop variable `i`:
`some out` when the loop returns `Column(out)`, `none` when it runs to its end. -/
def get_column_with_title_loop (model : List GtkColumnViewColumn) (title : String) (i : Nat) :
    Option Ptr :=
  if i < model.length then
    let out := g_list_model_get_item model i
    if (model[i]?).map GtkColumnViewColumn.title = some title then some out
    else get_column_with_title_loop model title (i + 1)
  else none
termination_by model.length - i

/-- Message logged by `ColumnView::get_column_with_title`. -/
def get_column_with_title_message (title : String) : String :=
  "In ColumnView::get_column_with_title: No column with title \x60" ++ title ++ "\x60"

/-- Transcription of `ColumnView::get_column_with_title`: the returned wrapper and the state after
the call. -/
def ColumnView.get_column_with_title (self : ColumnView) (title : String) : Column × ColumnView :=
  match get_column_with_title_loop self.columns title 0 with
  | some out => (Column.mk out, self)
  | none =>
    (Column.mk none,
      { self with trace := self.trace ++ [Call.log_critical (get_column_with_title_message title)] })

/-- The `for` loop of `ColumnView::has_column_with_title`, entered with loop variable `i`:
`true` when the loop returns `true`, `false` when it runs to its end. -/
def has_column_with_title_loop (model : List GtkColumnViewColumn) (title : String) (i : Nat) :
    Bool :=
  if i < model.length then
    if (model[i]?).map GtkColumnViewColumn.title = some title then true
    else has_column_with_title_loop model title (i + 1)
  else false
termination_by model.length - i

/-- Transcription of `ColumnView::has_column_with_title`. -/
def ColumnView.has_column_with_title (self : ColumnView) (title : String) : Bool :=
  has_column_with_title_loop self.columns title 0

/-! ## Render area: coordinate conversion -/

/-- A two-component vector.  The components are rationals: the conversions are studied in exact
arithmetic. -/
structure Vector2f where
  x : ℚ
  y : ℚ
  deriving DecidableEq

/-- Transcription of `RenderArea::from_gl_coordinates`; `size` is the value of
`this->get_allocated_size()`. -/
def from_gl_coordinates (size : Vector2f) (v : Vector2f) : Vector2f :=
  let out := v
  let out : Vector2f := { x := out.x / 2, y := out.y / 2 }
  let out : Vector2f := { x := out.x + 1 / 2, y := out.y + 1 / 2 }
  let out : Vector2f := { out with y := 1 - out.y }
  { x := out.x * size.x, y := out.y * size.y }

/-- Transcription of `RenderArea::to_gl_coordinates`; `size` is the value of
`this->get_allocated_size()`. -/
def to_gl_coordinates (size : Vector2f) (v : Vector2f) : Vector2f :=
  let out := v
  let out : Vector2f := { out with x := out.x / size.x }
  let out : Vector2f := { out with y := out.y / size.y }
  let out : Vector2f := { out with y := 1 - out.y }
  let out : Vector2f := { x := out.x - 1 / 2, y := out.y - 1 / 2 }
  let out : Vector2f := { x := out.x * 2, y := out.y * 2 }
  out

/-! ## Popover button -/

/-- Toolkit function `gtk_widget_has_css_class` on the widget's css classes. -/
def gtk_widget_has_css_class (classes : List String) (css_class : String) : Bool :=
  classes.contains css_class

/-- Toolkit function `gtk_widget_add_css_class`: adds the class unless the widget has it. -/
def gtk_widget_add_css_class (classes : List String) (css_class : String) : List String :=
  if classes.contains css_class then classes else classes ++ [css_class]

/-- Toolkit function `gtk_widget_remove_css_class`: the widget no longer has the class. -/
def gtk_widget_remove_css_class (classes : List String) (css_class : String) : List String :=
  classes.filter (fun c => c != css_class)

/-- The struct `detail::PopoverButtonInternal`: the native menu button and the two records
`menu` and `popover`. -/
structure PopoverButtonInternal where
  native : Ptr
  menu : Ptr
  popover : Ptr
  deriving DecidableEq, Repr

/-- State of a `PopoverButton`: the css classes, child, popover and flags of the native menu
button, and the member `_internal` (`none`: it points to no internal struct; only the
constructor that is handed an internal struct assigns it). -/
structure PopoverButton where
  css_classes : List String
  child : Ptr
  native_popover : Ptr
  always_show_arrow : Bool
  has_frame : Bool
  _internal : Option PopoverButtonInternal
  deriving DecidableEq, Repr

/-- Transcription of `detail::popover_button_internal_new`: the struct comes zeroed from
`g_object_new`, then `native` and `menu` are assigned. -/
def popover_button_internal_new (native : Ptr) : PopoverButtonInternal :=
  { native := native, menu := none, popover := none }

/-- Transcription of the constructor `PopoverButton::PopoverButton()`: the button wraps the menu
button `gtk_menu_button_new()` returns (`css_classes` and `has_frame` are what the toolkit gives a
new menu button; it has no child and no popover) and sets `always_show_arrow` on it.  The
constructor does not call `popover_button_internal_new` and does not assign `_internal`. -/
def PopoverButton.new (css_classes : List String) (has_frame : Bool) : PopoverButton :=
  { css_classes := css_classes
    child := none
    native_popover := none
    always_show_arrow := true
    has_frame := has_frame
    _internal := none }

/-- Transcription of `PopoverButton::get_is_circular`. -/
def PopoverButton.get_is_circular (self : PopoverButton) : Bool :=
  gtk_widget_has_css_class self.css_classes "circular"

/-- Transcription of `PopoverButton::set_is_circular`. -/
def PopoverButton.set_is_circular (self : PopoverButton) (b : Bool) : PopoverButton :=
  if b && !self.get_is_circular then
    { self with css_classes := gtk_widget_add_css_class self.css_classes "circular" }
  else if !b && self.get_is_circular then
    { self with css_classes := gtk_widget_remove_css_class self.css_classes "circular" }
  else self

/-- Transcription of `PopoverButton::set_child`: the button after the call, or `none` when the
call reads through a `_internal` that points to no struct.  `returns` says whether the check
`WARN_IF_SELF_INSERTION`, whose definition is not part of the sources, leaves the function.  The
call `PopoverMenu(_internal->menu).refresh_widgets()` reads the record `menu` through `_internal`
and acts on the menu's widgets, which are not part of the button's state. -/
def PopoverButton.set_child (self : PopoverButton) (child : Widget) (returns : Bool) :
    Option PopoverButton :=
  if returns then some self
  else
    let self := { self with child := child.native }
    match self._internal with
    | none => none
    | some _ => some self

/-- Transcription of `PopoverButton::remove_child`. -/
def PopoverButton.remove_child (self : PopoverButton) : PopoverButton :=
  { self with child := none }

/-- Transcription of `PopoverButton::set_always_show_arrow`. -/
def PopoverButton.set_always_show_arrow (self : PopoverButton) (b : Bool) : PopoverButton :=
  { self with always_show_arrow := b }

/-- Transcription of `PopoverButton::set_has_frame`. -/
def PopoverButton.set_has_frame (self : PopoverButton) (b : Bool) : PopoverButton :=
  { self with has_frame := b }

/-! ## Popover -/

/-- State of a `Popover`: the pointers `get_native()` and `get_internal()` return, the member
`_child` (a pointer to a widget wrapper: `none` is `nullptr`, `some w` points to `w`) and the
child of the native popover. -/
structure Popover where
  native : Ptr
  internal : Ptr
  _child : Option Widget
  native_child : Ptr
  deriving DecidableEq, Repr

/-- The part of a `PopoverMenu` the popover button uses: its internal and its native widget. -/
structure PopoverMenu where
  internal : Ptr
  native : Ptr
  deriving DecidableEq, Repr

/-- Transcription of `Popover::set_child`: the member is assigned first, then comes the check
`WARN_IF_SELF_INSERTION` (its definition is not part of the sources; `returns` says whether it
leaves the function), then the toolkit call. -/
def Popover.set_child (self : Popover) (child : Widget) (returns : Bool) : Popover :=
  let self := { self with _child := some child }
  if returns then self
  else { self with native_child := (self._child.bind Widget.native) }

/-- Transcription of `Popover::remove_child`. -/
def Popover.remove_child (self : Popover) : Popover :=
  { self with _child := none, native_child := none }

/-- Transcription of `Popover::get_child`. -/
def Popover.get_child (self : Popover) : Option Widget :=
  self._child

/-- Transcription of `PopoverButton::set_popover`: the button after the call, or `none` when the
first statement writes through a `_internal` that points to no struct. -/
def PopoverButton.set_popover (self : PopoverButton) (popover : Popover) :
    Option PopoverButton :=
  match self._internal with
  | none => none
  | some _internal =>
    let _internal := { _internal with menu := none }
    let _internal := { _internal with popover := popover.internal }
    some { self with _internal := some _internal, native_popover := popover.native }

/-- Transcription of `PopoverButton::set_popover_menu`: the button after the call, or `none` when
the first statement writes through a `_internal` that points to no struct.  The call
`PopoverMenu(_internal->menu).refresh_widgets()` acts on the menu's widgets, which are not part
of the button's state. -/
def PopoverButton.set_popover_menu (self : PopoverButton) (popover_menu : PopoverMenu) :
    Option PopoverButton :=
  match self._internal with
  | none => none
  | some _internal =>
    let _internal := { _internal with menu := popover_menu.internal }
    let _internal := { _internal with popover := none }
    some { self with _internal := some _internal, native_popover := popover_menu.native }

/-- Transcription of `PopoverButton::remove_popover`: the button after the call, or `none` when
the first statement writes through a `_internal` that points to no struct. -/
def PopoverButton.remove_popover (self : PopoverButton) : Option PopoverButton :=
  match self._internal with
  | none => none
  | some _internal =>
    let _internal := { _internal with menu := none }
    let _internal := { _internal with popover := none }
    some { self with _internal := some _internal, native_popover := none }

/-! ## Column view: list item factory callbacks -/

/-- A toolkit `GtkListItem`: the row item it is bound to and its child widget. -/
structure GtkListItem where
  item : ColumnViewRowItem
  child : Ptr
  deriving DecidableEq, Repr

/-- Toolkit function `gtk_list_item_set_child`. -/
def gtk_list_item_set_child (list_item : GtkListItem) (child : Ptr) : GtkListItem :=
  { list_item with child := child }

/-- Transcription of `ColumnView::on_list_item_factory_bind`. -/
def on_list_item_factory_bind (list_item : GtkListItem) (column : Ptr) : GtkListItem :=
  let row_item := list_item.item
  match row_item.widgets.find column with
  | none => gtk_list_item_set_child list_item none
  | some second => gtk_list_item_set_child list_item second

/-- Transcription of `ColumnView::on_list_item_factory_unbind`. -/
def on_list_item_factory_unbind (list_item : GtkListItem) (column : Ptr) : GtkListItem :=
  gtk_list_item_set_child list_item none

/-! ## Render area: the shared OpenGL context -/

/-- Calls into the logging module, the toolkit and OpenGL made by the render area, in program
order. -/
inductive GlCall where
  | log_critical (message : String)
  | log_warning (message : String)
  | gdk_display_create_gl_context
  | gdk_gl_context_set_required_version (context : Ptr) (major minor : Nat)
  | gdk_gl_context_realize (context : Ptr)
  | gdk_gl_context_make_current (context : Ptr)
  | glewInit
  | g_object_ref_sink (object : Ptr)
  | g_object_ref (object : Ptr)
  | g_object_unref (object : Ptr)
  | mark_gl_initialized
  | gtk_gl_area_make_current
  | gtk_gl_area_queue_render
  | create (texture : Ptr) (width height : Int)
  | bind_as_render_target (texture : Ptr)
  | unbind_as_render_target (texture : Ptr)
  | glClear
  | glClearColor
  | glEnable
  | set_current_blend_mode
  | glFlush
  | render (task : Ptr)
  | render_shape_task (task : Ptr)
  deriving DecidableEq, Repr

/-- The globals `detail::GL_CONTEXT` and `detail::GL_INITIALIZED`, the reference count and the
floating flag of the object `GL_CONTEXT` points to (count 0: no live object), and the calls made
so far. -/
structure GlState where
  GL_CONTEXT : Ptr
  GL_INITIALIZED : Bool
  ref_count : Nat
  floating : Bool
  calls : List GlCall
  deriving DecidableEq, Repr

/-- What the toolkit answers during one run of `initialize_opengl`: the context
`gdk_display_create_gl_context` returns and whether it is floating, the message of the error it
sets (if any), the message of the error `gdk_gl_context_realize` sets (if any), and the value of
`glewInit()`. -/
structure GdkEnv where
  created : Ptr
  created_floating : Bool
  create_error : Option String
  realize_error : Option String
  glew_error : Nat
  deriving DecidableEq, Repr

/-- The check `GDK_IS_GL_CONTEXT(GL_CONTEXT)`: the pointer is not null and its object is alive,
that is, its reference count is positive. -/
def GDK_IS_GL_CONTEXT (gl : GlState) : Bool :=
  gl.GL_CONTEXT.isSome && decide (0 < gl.ref_count)

/-- Adds a call to the record of calls. -/
def GlState.call (gl : GlState) (c : GlCall) : GlState :=
  { gl with calls := gl.calls ++ [c] }

/-- Toolkit function `g_object_ref` applied to `GL_CONTEXT`: one more reference on the context;
nothing happens for a null pointer. -/
def g_object_ref_GL_CONTEXT (gl : GlState) : GlState :=
  let gl := gl.call (GlCall.g_object_ref gl.GL_CONTEXT)
  if gl.GL_CONTEXT.isSome then { gl with ref_count := gl.ref_count + 1 } else gl

/-- Toolkit function `g_object_unref` applied to `GL_CONTEXT`: one reference less. -/
def g_object_unref_GL_CONTEXT (gl : GlState) : GlState :=
  let gl := gl.call (GlCall.g_object_unref gl.GL_CONTEXT)
  { gl with ref_count := gl.ref_count - 1 }

/-- Modelled from the spec: `detail::mark_gl_initialized` is not part of the sources; it marks
OpenGL as initialised, that is, it sets the flag `GL_INITIALIZED`. -/
def mark_gl_initialized (gl : GlState) : GlState :=
  { gl.call GlCall.mark_gl_initialized with GL_INITIALIZED := true }

/-- Text of the warning `initialize_opengl` logs when `glewInit()` returns `glewError`, with the
values of the GLEW error constants (1: no GL version, 2: GL 1.0 only, 3: GLX 1.1 only, 4: no GLX
display). -/
def glew_message (glewError : Nat) : String :=
  let str := "In glewInit: Unable to initialize glew " ++ "(" ++ toString glewError ++ ") "
  if glewError = 1 then str ++ "Missing GL version"
  else if glewError = 2 then str ++ "Need at least OpenGL 1.1"
  else if glewError = 3 then str ++ "Need at least GLX 1.2"
  else if glewError = 4 then str ++ "Need GLX Display for GLX support"
  else str

/-- Transcription of `detail::initialize_opengl`: the returned pointer and the globals after the
call, or `none` when the run has undefined behaviour.  The local `failed` is assigned in both
error branches and never read, so it does not appear.  After an error of
`gdk_display_create_gl_context` the local `error_maybe` is freed by `g_error_free` and not reset;
neither `gdk_gl_context_set_required_version` nor `gdk_gl_context_realize` clears it, so the second
test `error_maybe != nullptr` succeeds on the dangling pointer and the run reads
`error_maybe->message` from freed memory and frees it a second time: that run is `none`. -/
def initialize_opengl (gl : GlState) (env : GdkEnv) : Option (Ptr × GlState) :=
  if !GDK_IS_GL_CONTEXT gl then
    let gl : GlState :=
      { gl.call GlCall.gdk_display_create_gl_context with
        GL_CONTEXT := env.created
        ref_count := if env.created.isSome then 1 else 0
        floating := env.created.isSome && env.created_floating }
    let context := gl.GL_CONTEXT
    match env.create_error with
    | some _ => none
    | none =>
      let gl := gl.call (GlCall.gdk_gl_context_set_required_version context 3 3)
      let gl := gl.call (GlCall.gdk_gl_context_realize context)
      let error_maybe := env.realize_error
      let gl :=
        match error_maybe with
        | some message => gl.call (GlCall.log_critical ("In gdk_gl_context_realize: " ++ message))
        | none => gl
      let gl := gl.call (GlCall.gdk_gl_context_make_current context)
      let gl := gl.call GlCall.glewInit
      let glewError := env.glew_error
      let gl :=
        if glewError ≠ 0 then gl.call (GlCall.log_warning (glew_message glewError)) else gl
      let gl :=
        if gl.floating then
          { gl.call (GlCall.g_object_ref_sink gl.GL_CONTEXT) with floating := false }
        else gl
      let gl := g_object_ref_GL_CONTEXT gl
      let gl := mark_gl_initialized gl
      some (gl.GL_CONTEXT, gl)
  else some (gl.GL_CONTEXT, gl)

/-- The loop `while (GDK_IS_GL_CONTEXT(GL_CONTEXT)) g_object_unref(GL_CONTEXT)` of
`detail::shutdown_opengl`. -/
def shutdown_opengl_loop (gl : GlState) : GlState :=
  if GDK_IS_GL_CONTEXT gl = true then shutdown_opengl_loop (g_object_unref_GL_CONTEXT gl)
  else gl
termination_by gl.ref_count
decreasing_by
  rename_i h
  simp only [GDK_IS_GL_CONTEXT, Bool.and_eq_true, decide_eq_true_eq] at h
  simp only [g_object_unref_GL_CONTEXT, GlState.call]
  omega

/-- Transcription of `detail::shutdown_opengl`. -/
def shutdown_opengl (gl : GlState) : GlState :=
  let gl := shutdown_opengl_loop gl
  { gl with GL_CONTEXT := none, GL_INITIALIZED := false }

/-- Transcription of `RenderArea::on_create_context`: the returned pointer and the globals after
the call, or `none` when the run of `initialize_opengl` has undefined behaviour. -/
def on_create_context (gl : GlState) (env : GdkEnv) : Option (Ptr × GlState) :=
  match initialize_opengl gl env with
  | none => none
  | some result =>
    let gl := result.2
    let gl := g_object_ref_GL_CONTEXT gl
    let gl := gl.call (GlCall.gdk_gl_context_make_current gl.GL_CONTEXT)
    some (gl.GL_CONTEXT, gl)

/-- A sequence of `on_create_context` calls, one for each answer of the toolkit, each on the
globals the call before it left: the globals after the last call. -/
def on_create_context_all (gl : GlState) : List GdkEnv → Option GlState
  | [] => some gl
  | env :: rest =>
    match on_create_context gl env with
    | none => none
    | some result => on_create_context_all result.2 rest

/-! ## Render area: tasks and rendering -/

/-- The struct `detail::RenderAreaInternal`. -/
structure RenderAreaInternal where
  native : Ptr
  tasks : List Ptr
  apply_msaa : Bool
  render_texture : Ptr
  render_texture_shape : Ptr
  render_texture_shader : Ptr
  render_texture_shape_task : Ptr
  deriving DecidableEq, Repr

/-- Addresses of the objects the `new` expressions of `render_area_internal_new` allocate. -/
structure Allocation where
  render_texture : Nat
  render_texture_shape : Nat
  render_texture_shader : Nat
  render_texture_shape_task : Nat
  deriving DecidableEq, Repr

/-- Transcription of `detail::render_area_internal_new`.  The members the branch without
multisampling does not assign keep the zero of a new object. -/
def render_area_internal_new (area : Ptr) (msaa_samples : Int) (fresh : Allocation) :
    RenderAreaInternal :=
  let self : RenderAreaInternal :=
    { native := area, tasks := [], apply_msaa := decide (msaa_samples > 0),
      render_texture := none, render_texture_shape := none, render_texture_shader := none,
      render_texture_shape_task := none }
  if self.apply_msaa then
    { self with
      render_texture := some fresh.render_texture
      render_texture_shape := some fresh.render_texture_shape
      render_texture_shader := some fresh.render_texture_shader
      render_texture_shape_task := some fresh.render_texture_shape_task }
  else
    { self with
      render_texture := none, render_texture_shape := none, render_texture_shape_task := none }

/-- State of a `RenderArea`: its internal struct and the reference-count calls made so far. -/
structure RenderArea where
  _internal : RenderAreaInternal
  trace : List Call
  deriving DecidableEq, Repr

/-- Transcription of `RenderArea::add_render_task`; `task_internal` is the pointer
`task.operator GObject*()`. -/
def RenderArea.add_render_task (self : RenderArea) (task_internal : Ptr) : RenderArea :=
  { _internal := { self._internal with tasks := self._internal.tasks ++ [task_internal] }
    trace := self.trace ++ [Call.g_object_ref task_internal] }

/-- Transcription of `RenderArea::clear_render_tasks`. -/
def RenderArea.clear_render_tasks (self : RenderArea) : RenderArea :=
  { _internal := { self._internal with tasks := [] }
    trace := self.trace ++ self._internal.tasks.map Call.g_object_unref }

/-- The reference-count calls of `detail::render_area_internal_finalize`. -/
def render_area_internal_finalize (self : RenderAreaInternal) : List Call :=
  self.tasks.map Call.g_object_unref

/-- Effect of one call on the reference counts of the objects: `g_object_ref` adds one reference
to its object, `g_object_unref` takes one away. -/
def Call.apply (counts : Ptr → Nat) : Call → Ptr → Nat
  | Call.log_critical _ => counts
  | Call.g_object_ref object => fun p => if p = object then counts p + 1 else counts p
  | Call.g_object_unref object => fun p => if p = object then counts p - 1 else counts p

/-- Reference counts after a sequence of calls, starting from `counts`. -/
def ref_counts_after (counts : Ptr → Nat) : List Call → Ptr → Nat
  | [] => counts
  | c :: rest => ref_counts_after (Call.apply counts c) rest

/-- How a callback of the render area can fail: the `assert` on the shared context fails, or a
null member is dereferenced. -/
inductive Fault where
  | assertion_failed
  | null_dereference
  deriving DecidableEq, Repr

/-- Outcome of a callback of the render area: the internal struct after the call, the calls
made, and the returned `gboolean` (`true` for a callback returning nothing). -/
structure Rendered where
  internal : RenderAreaInternal
  calls : List GlCall
  result : Bool
  deriving DecidableEq, Repr

/-- Transcription of `RenderArea::clear`. -/
def RenderArea.clear : List GlCall :=
  [GlCall.glClear, GlCall.glClearColor]

/-- Transcription of `RenderArea::flush`. -/
def RenderArea.flush : List GlCall :=
  [GlCall.glFlush]

/-- Transcription of `RenderArea::on_resize`. -/
def on_resize (gl : GlState) (width height : Int) (internal : RenderAreaInternal) :
    Except Fault Rendered :=
  if !GDK_IS_GL_CONTEXT gl then Except.error Fault.assertion_failed
  else
    let tail := [GlCall.gtk_gl_area_make_current, GlCall.gtk_gl_area_queue_render]
    if internal.apply_msaa then
      match internal.render_texture with
      | none => Except.error Fault.null_dereference
      | some texture =>
        Except.ok
          { internal := internal, calls := GlCall.create (some texture) width height :: tail,
            result := true }
    else Except.ok { internal := internal, calls := tail, result := true }

/-- The loop `for (auto* internal : *(internal->tasks)) RenderTask(internal).render()`. -/
def render_tasks (tasks : List Ptr) : List GlCall :=
  tasks.map GlCall.render

/-- Transcription of `RenderArea::on_render`. -/
def on_render (gl : GlState) (internal : RenderAreaInternal) : Except Fault Rendered :=
  if !GDK_IS_GL_CONTEXT gl then Except.error Fault.assertion_failed
  else
    let head := [GlCall.gtk_gl_area_make_current]
    if internal.apply_msaa then
      match internal.render_texture, internal.render_texture_shape_task with
      | some texture, some shape_task =>
        Except.ok
          { internal := internal
            calls :=
              head ++ [GlCall.bind_as_render_target (some texture)] ++
                RenderArea.clear ++ [GlCall.glEnable, GlCall.set_current_blend_mode] ++
                render_tasks internal.tasks ++
                RenderArea.flush ++
                [GlCall.unbind_as_render_target (some texture)] ++
                RenderArea.clear ++ [GlCall.glEnable, GlCall.set_current_blend_mode] ++
                [GlCall.render_shape_task (some shape_task)] ++
                RenderArea.flush
            result := true }
      | _, _ => Except.error Fault.null_dereference
    else
      Except.ok
        { internal := internal
          calls :=
            head ++ RenderArea.clear ++ [GlCall.glEnable, GlCall.set_current_blend_mode] ++
              render_tasks internal.tasks ++ RenderArea.flush
          result := true }

/-- Transcription of `RenderArea::render_render_tasks`: the calls it makes. -/
def RenderArea.render_render_tasks (self : RenderArea) : List GlCall :=
  render_tasks self._internal.tasks

/-- The invariant of the internal struct: with multisampling the render texture, its shape and
the shape's task are all non-null, without it all three are null. -/
def RenderAreaInternal.msaa_invariant (self : RenderAreaInternal) : Bool :=
  if self.apply_msaa then
    self.render_texture.isSome && self.render_texture_shape.isSome &&
      self.render_texture_shape_task.isSome
  else
    self.render_texture.isNone && self.render_texture_shape.isNone &&
      self.render_texture_shape_task.isNone

/-- The tasks rendered by `RenderTask(internal).render()` in a sequence of calls, in order. -/
def user_renders : List GlCall → List Ptr
  | [] => []
  | GlCall.render task :: rest => task :: user_renders rest
  | _ :: rest => user_renders rest

/-- The calls of a sequence that concern the render target, clearing, rendering and flushing:
the calls to `gtk_gl_area_make_current`, `glEnable` and `set_current_blend_mode` are left out
and the `glClearColor` that ends `RenderArea::clear` is dropped, so that a clear shows as
`glClear`. -/
def render_shape_of (calls : List GlCall) : List GlCall :=
  calls.filter (fun c =>
    c != GlCall.gtk_gl_area_make_current && c != GlCall.glEnable &&
      c != GlCall.set_current_blend_mode && c != GlCall.glClearColor)

/-! ## Popover button: sequences of calls -/

/-- A call of one of the member functions of `PopoverButton` that change its state. -/
inductive PopoverButtonCall where
  | set_child (child : Widget) (returns : Bool)
  | remove_child
  | set_popover (popover : Popover)
  | set_popover_menu (popover_menu : PopoverMenu)
  | remove_popover
  | set_always_show_arrow (b : Bool)
  | set_has_frame (b : Bool)
  | set_is_circular (b : Bool)
  deriving DecidableEq, Repr

/-- The state after one call, or `none` when the call has no defined result. -/
def PopoverButton.run (self : PopoverButton) : PopoverButtonCall → Option PopoverButton
  | PopoverButtonCall.set_child child returns => self.set_child child returns
  | PopoverButtonCall.remove_child => some self.remove_child
  | PopoverButtonCall.set_popover popover => self.set_popover popover
  | PopoverButtonCall.set_popover_menu popover_menu => self.set_popover_menu popover_menu
  | PopoverButtonCall.remove_popover => self.remove_popover
  | PopoverButtonCall.set_always_show_arrow b => some (self.set_always_show_arrow b)
  | PopoverButtonCall.set_has_frame b => some (self.set_has_frame b)
  | PopoverButtonCall.set_is_circular b => some (self.set_is_circular b)

/-- The state after a sequence of calls, or `none` when one of them has no defined result. -/
def PopoverButton.run_all (self : PopoverButton) : List PopoverButtonCall → Option PopoverButton
  | [] => some self
  | call :: rest =>
    match self.run call with
    | none => none
    | some after => after.run_all rest

/-- At most one of the records `menu` and `popover` of the internal struct is non-null. -/
def PopoverButtonInternal.at_most_one_record (self : PopoverButtonInternal) : Bool :=
  self.menu.isNone || self.popover.isNone

/-! ## Column view: the references held by the widget cache -/

/-- Transcription of `detail::column_view_row_item_finalize`: the reference-count calls of the
loop `for (auto& pair : *(self->widgets)) g_object_unref(pair.second)`. -/
def column_view_row_item_finalize (self : ColumnViewRowItem) : List Call :=
  self.widgets.map (fun pair => Call.g_object_unref pair.2)

/-- The ordering invariant of a `std::map`: the keys of its entries increase strictly in
iteration order. -/
def StdMap.ordered (m : StdMap) : Prop :=
  m.Pairwise (fun e₁ e₂ => ptr_rank e₁.1 < ptr_rank e₂.1)

/-- Number of entries of a map whose value is the widget `widget`. -/
def StdMap.cells_mapped_to (m : StdMap) (widget : Ptr) : Nat :=
  m.countP (fun pair => decide (pair.2 = widget))

/-- Number of cells of the given rows whose value is the widget `widget`. -/
def cells_of_rows (rows : List ColumnViewRowItem) (widget : Ptr) : Nat :=
  (rows.map (fun item => item.widgets.cells_mapped_to widget)).sum

/-- Number of (row, column) cells of the widget cache that map to the widget `widget`. -/
def ColumnView.cells_mapped_to (self : ColumnView) (widget : Ptr) : Nat :=
  cells_of_rows self.list_store widget

/-- The state after a sequence of `set_widget_at` calls, given by their arguments; `none` when
one of the calls has not returned with `fuel` tests of its row loop. -/
def ColumnView.set_widget_at_all (self : ColumnView) :
    List (Column × Nat × Widget) → Nat → Option ColumnView
  | [], _ => some self
  | call :: rest, fuel =>
    match self.set_widget_at call.1 call.2.1 call.2.2 fuel with
    | none => none
    | some after => after.set_widget_at_all rest fuel

/-- The cache holds as many references on each widget as it has cells mapped to it: every map
of the list store is ordered, and for each widget the `g_object_ref` calls made so far are the
`g_object_unref` calls made so far plus the cells mapped to the widget. -/
def ColumnView.cache_balanced (self : ColumnView) : Prop :=
  (∀ item ∈ self.list_store, item.widgets.ordered) ∧
    ∀ widget : Ptr,
      self.trace.count (Call.g_object_ref widget) =
        self.trace.count (Call.g_object_unref widget) + self.cells_mapped_to widget

/-! ## Lemmas on the map and on the row loop -/

theorem StdMap.find_insert_or_assign_self (m : StdMap) (key value : Ptr) :
    StdMap.find (StdMap.insert_or_assign m key value) key = some value := by
  induction m with
  | nil => simp [StdMap.insert_or_assign, StdMap.find]
  | cons e rest ih =>
    obtain ⟨k, v⟩ := e
    unfold StdMap.insert_or_assign
    split_ifs with h1 h2
    · simp [StdMap.find]
    · simp [StdMap.find]
    · simp [StdMap.find, h1, ih]

theorem StdMap.find_insert_or_assign_other (m : StdMap) (key value other : Ptr)
    (h : other ≠ key) :
    StdMap.find (StdMap.insert_or_assign m key value) other = StdMap.find m other := by
  induction m with
  | nil => simp [StdMap.insert_or_assign, StdMap.find, Ne.symm h]
  | cons e rest ih =>
    obtain ⟨k, v⟩ := e
    unfold StdMap.insert_or_assign
    split_ifs with h1 h2
    · subst h1
      simp [StdMap.find, Ne.symm h]
    · simp [StdMap.find, Ne.symm h]
    · simp [StdMap.find, ih]

theorem g_list_model_get_n_items_of_lt {α : Type} (model : List α) (h : model.length < 2 ^ 32) :
    g_list_model_get_n_items model = model.length :=
  Nat.mod_eq_of_lt h

/-- A `guint` count never exceeds a row index of at least `2 ^ 32 - 1`, so the row loop does not
exit for such an index, however often its condition is tested. -/
theorem append_rows_never (fuel row_i : Nat) (model : List ColumnViewRowItem)
    (h : 2 ^ 32 - 1 ≤ row_i) : append_rows fuel row_i model = none := by
  induction fuel generalizing model with
  | zero => rfl
  | succ fuel ih =>
    have hlt : g_list_model_get_n_items model < 2 ^ 32 := Nat.mod_lt _ (by norm_num)
    rw [append_rows, if_pos (by omega)]
    exact ih _

theorem rows_completed_append_new (row_i : Nat) (model : List ColumnViewRowItem)
    (h : model.length ≤ row_i) :
    rows_completed row_i (model ++ [column_view_row_item_new]) = rows_completed row_i model := by
  have hk : row_i + 1 - model.length = (row_i + 1 - (model.length + 1)) + 1 := by omega
  simp only [rows_completed, List.length_append, List.length_singleton]
  rw [hk, List.replicate_succ]
  simp

theorem rows_completed_of_lt (row_i : Nat) (model : List ColumnViewRowItem)
    (h : row_i < model.length) : rows_completed row_i model = model := by
  have hk : row_i + 1 - model.length = 0 := by omega
  simp [rows_completed, hk]

/-- For a row index below `2 ^ 32 - 1` the row loop exits, with the rows completed up to that
index, once its condition may be tested often enough. -/
theorem append_rows_eq (fuel row_i : Nat) (model : List ColumnViewRowItem)
    (hrow : row_i < 2 ^ 32 - 1) (hlen : model.length < 2 ^ 32)
    (hfuel : row_i + 1 - model.length < fuel) :
    append_rows fuel row_i model = some (rows_completed row_i model) := by
  induction fuel generalizing model with
  | zero => omega
  | succ fuel ih =>
    rw [append_rows, g_list_model_get_n_items_of_lt model hlen]
    by_cases hle : model.length ≤ row_i
    · rw [if_pos hle, ih _ (by simp; omega) (by simp; omega),
        rows_completed_append_new row_i model hle]
    · rw [if_neg hle, rows_completed_of_lt row_i model (by omega)]

/-- When the row loop exits, the row index is below `2 ^ 32 - 1` and the rows are completed up
to that index. -/
theorem append_rows_some (fuel row_i : Nat) (model rows : List ColumnViewRowItem)
    (hlen : model.length < 2 ^ 32) (h : append_rows fuel row_i model = some rows) :
    row_i < 2 ^ 32 - 1 ∧ rows = rows_completed row_i model := by
  have hrow : row_i < 2 ^ 32 - 1 := by
    by_contra hge
    rw [append_rows_never fuel row_i model (by omega)] at h
    cases h
  refine ⟨hrow, ?_⟩
  induction fuel generalizing model with
  | zero => cases h
  | succ fuel ih =>
    rw [append_rows, g_list_model_get_n_items_of_lt model hlen] at h
    by_cases hle : model.length ≤ row_i
    · rw [if_pos hle] at h
      rw [ih _ (by simp; omega) h, rows_completed_append_new row_i model hle]
    · rw [if_neg hle] at h
      rw [← Option.some.inj h]
      exact (rows_completed_of_lt row_i model (by omega)).symm

theorem rows_completed_length (row_i : Nat) (model : List ColumnViewRowItem) :
    (rows_completed row_i model).length = max model.length (row_i + 1) := by
  rw [rows_completed, List.length_append, List.length_replicate]
  omega

theorem rows_completed_getElem?_isSome (row_i : Nat) (model : List ColumnViewRowItem) :
    ∃ item, (rows_completed row_i model)[row_i]? = some item := by
  have h : row_i < (rows_completed row_i model).length := by
    rw [rows_completed_length]; omega
  exact ⟨(rows_completed row_i model)[row_i], List.getElem?_eq_getElem h⟩

theorem rows_completed_getElem?_old (row_i : Nat) (model : List ColumnViewRowItem) (r : Nat)
    (h : r < model.length) : (rows_completed row_i model)[r]? = model[r]? := by
  rw [rows_completed, List.getElem?_append_left h]

theorem rows_completed_getElem?_new (row_i : Nat) (model : List ColumnViewRowItem) (r : Nat)
    (h : model.length ≤ r) (hr : r ≤ row_i) :
    (rows_completed row_i model)[r]? = some column_view_row_item_new := by
  rw [rows_completed, List.getElem?_append_right h, List.getElem?_replicate]
  rw [if_pos (by omega)]

theorem rows_completed_getElem?_beyond (row_i : Nat) (model : List ColumnViewRowItem) (r : Nat)
    (h : model.length ≤ r) (hr : row_i < r) : (rows_completed row_i model)[r]? = none := by
  rw [List.getElem?_eq_none_iff, rows_completed_length]
  omega

/-- For a column with a native object and a row index of at least `2 ^ 32 - 1`, `set_widget_at`
does not return, however often the condition of its row loop is tested. -/
theorem set_widget_at_never (self : ColumnView) (a : Nat) (row_i : Nat) (widget : Widget)
    (fuel : Nat) (h : 2 ^ 32 - 1 ≤ row_i) :
    self.set_widget_at (Column.mk (some a)) row_i widget fuel = none := by
  simp [ColumnView.set_widget_at, append_rows_never fuel row_i self.list_store h]

/-- The state `set_widget_at` returns for a column with a native object, once the row loop has
completed the rows up to `row_i` and `item` is the row at that index. -/
theorem set_widget_at_of_rows (self : ColumnView) (a : Nat) (row_i : Nat) (widget : Widget)
    (fuel : Nat) (item : ColumnViewRowItem) (hrow : row_i < 2 ^ 32 - 1)
    (hloop : append_rows fuel row_i self.list_store = some (rows_completed row_i self.list_store))
    (hitem : (rows_completed row_i self.list_store)[row_i]? = some item) :
    self.set_widget_at (Column.mk (some a)) row_i widget fuel =
      some
        { self with
          list_store :=
            (rows_completed row_i self.list_store).set row_i
              { widgets := item.widgets.insert_or_assign (some a) widget.native }
          trace :=
            (match item.widgets.find (some a) with
              | some old => self.trace ++ [Call.g_object_unref old]
              | none => self.trace) ++ [Call.g_object_ref widget.native] } := by
  have hmod : row_i % 2 ^ 32 = row_i := Nat.mod_eq_of_lt (by omega)
  simp only [ColumnView.set_widget_at, hloop, hmod, hitem]

/-- For a column with a native object, a store of fewer than `2 ^ 32` rows and a row index below
`2 ^ 32 - 1`, `set_widget_at` returns once the condition of its row loop may be tested often
enough: the rows are completed up to `row_i`, then the map of row `row_i` is updated. -/
theorem set_widget_at_returns (self : ColumnView) (a : Nat) (row_i : Nat) (widget : Widget)
    (fuel : Nat) (hrows : self.list_store.length < 2 ^ 32) (hrow : row_i < 2 ^ 32 - 1)
    (hfuel : row_i + 1 - self.list_store.length < fuel) :
    ∃ after, self.set_widget_at (Column.mk (some a)) row_i widget fuel = some after := by
  obtain ⟨item, hitem⟩ := rows_completed_getElem?_isSome row_i self.list_store
  exact ⟨_, set_widget_at_of_rows self a row_i widget fuel item hrow
    (append_rows_eq fuel row_i self.list_store hrow hrows hfuel) hitem⟩

/-- Whenever `set_widget_at` returns for a column with a native object (on a store of fewer than
`2 ^ 32` rows), the row index is below `2 ^ 32 - 1`, the rows have been completed up to `row_i`
and the map of row `row_i` has been updated. -/
theorem set_widget_at_some (self after : ColumnView) (a : Nat) (row_i : Nat) (widget : Widget)
    (fuel : Nat) (hrows : self.list_store.length < 2 ^ 32)
    (h : self.set_widget_at (Column.mk (some a)) row_i widget fuel = some after) :
    row_i < 2 ^ 32 - 1 ∧
      ∃ item, (rows_completed row_i self.list_store)[row_i]? = some item ∧
        after.list_store =
          (rows_completed row_i self.list_store).set row_i
            { widgets := item.widgets.insert_or_assign (some a) widget.native } ∧
        after.trace =
          (match item.widgets.find (some a) with
            | some old => self.trace ++ [Call.g_object_unref old]
            | none => self.trace) ++ [Call.g_object_ref widget.native] ∧
        after.list_store.length = max self.list_store.length (row_i + 1) := by
  cases hloop : append_rows fuel row_i self.list_store with
  | none => simp [ColumnView.set_widget_at, hloop] at h
  | some rows =>
    obtain ⟨hrow, hrows_eq⟩ := append_rows_some fuel row_i self.list_store rows hrows hloop
    subst hrows_eq
    obtain ⟨item, hitem⟩ := rows_completed_getElem?_isSome row_i self.list_store
    rw [set_widget_at_of_rows self a row_i widget fuel item hrow hloop hitem] at h
    cases h
    refine ⟨hrow, item, hitem, rfl, rfl, ?_⟩
    simp only [List.length_set, rows_completed_length]

/-! ## `ColumnView::set_widget_at` -/

/-- C1: `set_widget_at` called with a column whose native pointer is null returns at once and
only logs the critical message "In ColumnView::set_widget: Column does not exist, no insertion
will take place": the state is the old one with that message added to the trace, so the number
of rows, the list store and every cached cell are unchanged and the trace gains no
`g_object_ref` call, for every row index and widget. -/
theorem set_widget_at_null_column (self : ColumnView) (column : Column)
    (h : column._native = none) (row_i : Nat) (widget : Widget) (fuel : Nat) :
    ∃ after, self.set_widget_at column row_i widget fuel = some after ∧
      after =
        { self with
          trace :=
            self.trace ++
              [Call.log_critical
                "In ColumnView::set_widget: Column does not exist, no insertion will take place"] }
        ∧
      after.get_n_rows = self.get_n_rows ∧
      after.list_store = self.list_store ∧
      (∀ r c, after.cell r c = self.cell r c) ∧
      (∀ p, after.trace.count (Call.g_object_ref p) =
        self.trace.count (Call.g_object_ref p)) := by
  obtain ⟨native⟩ := column
  simp only at h
  subst h
  refine ⟨_, rfl, rfl, rfl, rfl, fun _ _ => rfl, fun p => ?_⟩
  simp [List.count_append, List.count_singleton]

/-- Witness of C1: a view with one row caching widget 7 in column 1; setting widget 9 at row 3 of
the null column returns and leaves the row count at 1. -/
theorem set_widget_at_null_column_witness :
    (Column.mk none)._native = none ∧
      ∃ after,
        ColumnView.set_widget_at ⟨[], [⟨[(some 1, some 7)]⟩], false, false, []⟩ (Column.mk none) 3
          ⟨some 9⟩ 0 = some after ∧
        after.get_n_rows = 1 :=
  ⟨rfl,
    let ⟨after, h1, _, h3, _⟩ :=
      set_widget_at_null_column ⟨[], [⟨[(some 1, some 7)]⟩], false, false, []⟩ (Column.mk none)
        rfl 3 ⟨some 9⟩ 0
    ⟨after, h1, h3.trans (by decide)⟩⟩

/-- C2 (amended): for a column with a native object, a list store of fewer than `2 ^ 32` rows and
a row index `row_i < 2 ^ 32 - 1`, `set_widget_at(column, row_i, widget)` returns (once the
condition of its row loop may be tested more than `row_i + 1 - n` times) and `get_n_rows`
afterwards is `max n (row_i + 1)` where `n` is the row count before: no row is removed, nothing
is appended when `row_i < n`, and otherwise the rows are completed exactly up to index
`row_i`. -/
theorem set_widget_at_n_rows (self : ColumnView) (column : Column) (h : column._native ≠ none)
    (row_i : Nat) (widget : Widget) (fuel : Nat) (hrows : self.list_store.length < 2 ^ 32)
    (hrow : row_i < 2 ^ 32 - 1) (hfuel : row_i + 1 - self.list_store.length < fuel) :
    ∃ after, self.set_widget_at column row_i widget fuel = some after ∧
      after.get_n_rows = max self.get_n_rows (row_i + 1) ∧
      self.get_n_rows ≤ after.get_n_rows ∧
      (row_i < self.get_n_rows → after.get_n_rows = self.get_n_rows) ∧
      (self.get_n_rows ≤ row_i → after.get_n_rows = row_i + 1) := by
  obtain ⟨native⟩ := column
  cases native with
  | none => exact absurd rfl h
  | some a =>
    obtain ⟨after, hafter⟩ := set_widget_at_returns self a row_i widget fuel hrows hrow hfuel
    obtain ⟨-, item, -, -, -, hlength⟩ := set_widget_at_some self after a row_i widget fuel hrows
      hafter
    have hbefore : self.get_n_rows = self.list_store.length :=
      g_list_model_get_n_items_of_lt _ hrows
    have hlen : after.get_n_rows = max self.get_n_rows (row_i + 1) := by
      rw [hbefore, ← hlength]
      exact g_list_model_get_n_items_of_lt _ (by rw [hlength]; omega)
    refine ⟨after, hafter, hlen, ?_, fun hr => ?_, fun hr => ?_⟩
    · rw [hlen]; exact le_max_left _ _
    · rw [hlen]; exact max_eq_left (by omega)
    · rw [hlen]; exact max_eq_right (by omega)

/-- Witness of C2 (amended): on a view with one row, setting a widget at row 3 of column 1
returns with four rows. -/
theorem set_widget_at_n_rows_witness :
    (Column.mk (some 1))._native ≠ none ∧
      ∃ after,
        ColumnView.set_widget_at ⟨[], [⟨[]⟩], false, false, []⟩ (Column.mk (some 1)) 3
          ⟨some 9⟩ 4 = some after ∧
        after.get_n_rows = max (ColumnView.get_n_rows ⟨[], [⟨[]⟩], false, false, []⟩) (3 + 1) :=
  ⟨by decide,
    let ⟨after, h1, h2, _⟩ :=
      set_widget_at_n_rows ⟨[], [⟨[]⟩], false, false, []⟩ (Column.mk (some 1)) (by decide) 3
        ⟨some 9⟩ 4 (by decide) (by decide) (by decide)
    ⟨after, h1, h2⟩⟩

/-- Counterexample to C2 as stated: on a view without rows, `set_widget_at` for column 1 and the row index
`2 ^ 32 - 1 = 4294967295` never returns, however often the condition of its row loop is tested:
there is no state after the call, and none in which `get_n_rows` is `4294967296`. -/
theorem set_widget_at_n_rows_counterexample :
    ¬ ∃ fuel after,
      ColumnView.set_widget_at ⟨[], [], false, false, []⟩ (Column.mk (some 1)) 4294967295
          ⟨some 9⟩ fuel = some after ∧
        after.get_n_rows =
          max (ColumnView.get_n_rows ⟨[], [], false, false, []⟩) (4294967295 + 1) := by
  rintro ⟨fuel, after, h, -⟩
  rw [set_widget_at_never _ _ _ _ _ (by norm_num)] at h
  cases h

/-- What `set_widget_at` leaves in the cells when it returns for a column with a native object
on a store of fewer than `2 ^ 32` rows. -/
theorem set_widget_at_cells_of_some (self after : ColumnView) (a : Nat) (row_i : Nat)
    (widget : Widget) (fuel : Nat) (hrows : self.list_store.length < 2 ^ 32)
    (hafter : self.set_widget_at (Column.mk (some a)) row_i widget fuel = some after) :
    after.cell row_i (some a) = some widget.native ∧
      (∀ r c, (r, c) ≠ (row_i, some a) → after.cell r c = self.cell r c) ∧
      (∀ r, self.list_store.length ≤ r → r ≤ row_i → r ≠ row_i →
        after.list_store[r]? = some column_view_row_item_new) ∧
      (∀ r c, self.list_store.length ≤ r → r ≤ row_i → (r, c) ≠ (row_i, some a) →
        ∃ item, after.list_store[r]? = some item ∧ item.widgets.find c = none) := by
  obtain ⟨-, item, hitem, hstore, -, -⟩ :=
    set_widget_at_some self after a row_i widget fuel hrows hafter
  have hlt : row_i < (rows_completed row_i self.list_store).length := by
    rw [rows_completed_length]; omega
  -- the cell read back from the updated store
  have hcell : ∀ r c, after.cell r c =
      if r = row_i then
        (if c = some a then some widget.native else item.widgets.find c)
      else ((rows_completed row_i self.list_store)[r]?).bind (fun it => it.widgets.find c) := by
    intro r c
    simp only [ColumnView.cell, hstore]
    by_cases hr : r = row_i
    · subst hr
      rw [if_pos rfl, List.getElem?_set_self hlt, Option.some_bind]
      by_cases hc : c = some a
      · subst hc
        rw [if_pos rfl, StdMap.find_insert_or_assign_self]
      · rw [if_neg hc, StdMap.find_insert_or_assign_other _ _ _ _ hc]
    · rw [if_neg hr, List.getElem?_set_ne (Ne.symm hr)]
  -- rows of the store after the loop, read in terms of the store before
  have hrow : ∀ r c, ((rows_completed row_i self.list_store)[r]?).bind
      (fun it => it.widgets.find c) = self.cell r c := by
    intro r c
    simp only [ColumnView.cell]
    by_cases hr : r < self.list_store.length
    · rw [rows_completed_getElem?_old _ _ _ hr]
    · have hnone : self.list_store[r]? = none := List.getElem?_eq_none_iff.mpr (by omega)
      rw [hnone]
      by_cases hr2 : r ≤ row_i
      · rw [rows_completed_getElem?_new _ _ _ (by omega) hr2]
        rfl
      · rw [rows_completed_getElem?_beyond _ _ _ (by omega) (by omega)]
  refine ⟨?_, ?_, ?_, ?_⟩
  · rw [hcell, if_pos rfl, if_pos rfl]
  · intro r c hne
    rw [hcell]
    by_cases hr : r = row_i
    · subst hr
      have hc : c ≠ some a := fun hc => hne (by rw [hc])
      rw [if_pos rfl, if_neg hc]
      have := hrow r c
      rw [hitem, Option.some_bind] at this
      exact this
    · rw [if_neg hr, hrow]
  · intro r hn hr hne
    rw [hstore, List.getElem?_set_ne (Ne.symm hne)]
    exact rows_completed_getElem?_new _ _ _ hn hr
  · intro r c hn hr hne
    by_cases hrr : r = row_i
    · subst hrr
      have hc : c ≠ some a := fun hc => hne (by rw [hc])
      refine ⟨_, by rw [hstore, List.getElem?_set_self hlt], ?_⟩
      rw [StdMap.find_insert_or_assign_other _ _ _ _ hc]
      have hnew := rows_completed_getElem?_new r self.list_store r hn le_rfl
      rw [hitem] at hnew
      cases hnew
      rfl
    · refine ⟨column_view_row_item_new, ?_, rfl⟩
      rw [hstore, List.getElem?_set_ne (Ne.symm hrr)]
      exact rows_completed_getElem?_new _ _ _ hn hr

/-- C3 (amended): for a column `c` with a native object, a list store of fewer than `2 ^ 32` rows
and a row index `r < 2 ^ 32 - 1`, `set_widget_at(c, r, w)` returns (once the condition of its row
loop may be tested often enough) and afterwards the cell `(r, c)` holds `w`; every other cell
holds what it held before (in particular every cell that existed); and every row appended by the
call exists up to index `r`, is empty when it is not row `r`, and has no widget in any column
other than `c` when it is row `r`. -/
theorem set_widget_at_cells (self : ColumnView) (column : Column) (h : column._native ≠ none)
    (row_i : Nat) (widget : Widget) (fuel : Nat) (hrows : self.list_store.length < 2 ^ 32)
    (hrow : row_i < 2 ^ 32 - 1) (hfuel : row_i + 1 - self.list_store.length < fuel) :
    ∃ after, self.set_widget_at column row_i widget fuel = some after ∧
      after.cell row_i column._native = some widget.native ∧
      (∀ r c, (r, c) ≠ (row_i, column._native) → after.cell r c = self.cell r c) ∧
      (∀ r, self.get_n_rows ≤ r → r ≤ row_i → r ≠ row_i →
        after.list_store[r]? = some column_view_row_item_new) ∧
      (∀ r c, self.get_n_rows ≤ r → r ≤ row_i → (r, c) ≠ (row_i, column._native) →
        ∃ item, after.list_store[r]? = some item ∧ item.widgets.find c = none) := by
  obtain ⟨native⟩ := column
  cases native with
  | none => exact absurd rfl h
  | some a =>
    obtain ⟨after, hafter⟩ := set_widget_at_returns self a row_i widget fuel hrows hrow hfuel
    have hbefore : self.get_n_rows = self.list_store.length :=
      g_list_model_get_n_items_of_lt _ hrows
    rw [hbefore]
    exact ⟨after, hafter, set_widget_at_cells_of_some self after a row_i widget fuel hrows hafter⟩

/-- Witness of C3 (amended): on a view whose only row caches widget 7 in column 1, setting widget
9 at row 2 of column 1 returns, and the cell (2, column 1) then holds widget 9. -/
theorem set_widget_at_cells_witness :
    (Column.mk (some 1))._native ≠ none ∧
      ∃ after,
        ColumnView.set_widget_at ⟨[], [⟨[(some 1, some 7)]⟩], false, false, []⟩
          (Column.mk (some 1)) 2 ⟨some 9⟩ 3 = some after ∧
        after.cell 2 (some 1) = some (some 9) :=
  ⟨by decide,
    let ⟨after, h1, h2, _⟩ :=
      set_widget_at_cells ⟨[], [⟨[(some 1, some 7)]⟩], false, false, []⟩ (Column.mk (some 1))
        (by decide) 2 ⟨some 9⟩ 3 (by decide) (by decide) (by decide)
    ⟨after, h1, h2⟩⟩

/-- Counterexample to C3 as stated: on a view whose only row caches widget 7 in column 1, `set_widget_at`
for column 1 and the row index `2 ^ 32 = 4294967296` never returns, however often the condition
of its row loop is tested: there is no state after the call in which the cell
`(4294967296, column 1)` holds the widget. -/
theorem set_widget_at_cells_counterexample :
    ¬ ∃ fuel after,
      ColumnView.set_widget_at ⟨[], [⟨[(some 1, some 7)]⟩], false, false, []⟩
          (Column.mk (some 1)) 4294967296 ⟨some 9⟩ fuel = some after ∧
        after.cell 4294967296 (some 1) = some (some 9) := by
  rintro ⟨fuel, after, h, -⟩
  rw [set_widget_at_never _ _ _ _ _ (by norm_num)] at h
  cases h

/-! ## `RenderArea::to_gl_coordinates` and `RenderArea::from_gl_coordinates` -/

/-- C4: for an allocated size with non-zero width and height the two conversions are mutually
inverse in exact arithmetic: `from_gl_coordinates (to_gl_coordinates p) = p` and
`to_gl_coordinates (from_gl_coordinates p) = p` for every point `p`. -/
theorem gl_coordinates_inverse (size : Vector2f) (hw : size.x ≠ 0) (hh : size.y ≠ 0)
    (p : Vector2f) :
    from_gl_coordinates size (to_gl_coordinates size p) = p ∧
      to_gl_coordinates size (from_gl_coordinates size p) = p := by
  obtain ⟨w, h⟩ := size
  obtain ⟨x, y⟩ := p
  simp only at hw hh
  constructor
  · simp only [from_gl_coordinates, to_gl_coordinates, Vector2f.mk.injEq]
    constructor <;> field_simp <;> ring
  · simp only [from_gl_coordinates, to_gl_coordinates, Vector2f.mk.injEq]
    constructor <;> field_simp <;> ring

/-- Witness of C4: size 4 x 2 and the point (1, 3/2). -/
theorem gl_coordinates_inverse_witness :
    (Vector2f.mk 4 2).x ≠ 0 ∧ (Vector2f.mk 4 2).y ≠ 0 ∧
      from_gl_coordinates ⟨4, 2⟩ (to_gl_coordinates ⟨4, 2⟩ ⟨1, 3 / 2⟩) = ⟨1, 3 / 2⟩ ∧
      to_gl_coordinates ⟨4, 2⟩ (from_gl_coordinates ⟨4, 2⟩ ⟨1, 3 / 2⟩) = ⟨1, 3 / 2⟩ :=
  ⟨by norm_num, by norm_num,
    gl_coordinates_inverse ⟨4, 2⟩ (by norm_num) (by norm_num) ⟨1, 3 / 2⟩⟩

/-- C5: for an allocated size `(w, h)` with `w ≠ 0` and `h ≠ 0`, `to_gl_coordinates` maps the
widget-space point `(x, y)` to `(2x/w - 1, 1 - 2y/h)` in exact arithmetic; the top-left corner
`(0, 0)` goes to `(-1, 1)`, the centre `(w/2, h/2)` to `(0, 0)` and the bottom-right corner
`(w, h)` to `(1, -1)`; for a positive size the result grows with `x` and falls with `y`. -/
theorem to_gl_coordinates_formula (size : Vector2f) (hw : size.x ≠ 0) (hh : size.y ≠ 0) :
    (∀ p : Vector2f,
        to_gl_coordinates size p = ⟨2 * p.x / size.x - 1, 1 - 2 * p.y / size.y⟩) ∧
      to_gl_coordinates size ⟨0, 0⟩ = ⟨-1, 1⟩ ∧
      to_gl_coordinates size ⟨size.x / 2, size.y / 2⟩ = ⟨0, 0⟩ ∧
      to_gl_coordinates size ⟨size.x, size.y⟩ = ⟨1, -1⟩ ∧
      (0 < size.x → 0 < size.y → ∀ p q : Vector2f,
        (p.x < q.x → (to_gl_coordinates size p).x < (to_gl_coordinates size q).x) ∧
          (p.y < q.y → (to_gl_coordinates size q).y < (to_gl_coordinates size p).y)) := by
  obtain ⟨w, h⟩ := size
  simp only at hw hh
  have hformula : ∀ p : Vector2f,
      to_gl_coordinates ⟨w, h⟩ p = ⟨2 * p.x / w - 1, 1 - 2 * p.y / h⟩ := by
    intro p
    simp only [to_gl_coordinates, Vector2f.mk.injEq]
    constructor
    · field_simp
      ring
    · field_simp
      ring
  refine ⟨hformula, ?_, ?_, ?_, ?_⟩
  · rw [hformula]
    norm_num
  · rw [hformula, Vector2f.mk.injEq]
    constructor
    · field_simp
    · field_simp
  · rw [hformula, Vector2f.mk.injEq]
    constructor
    · field_simp
      norm_num
    · field_simp
      norm_num
  · intro hwpos hhpos p q
    rw [hformula p, hformula q]
    constructor
    · intro hlt
      have := (div_lt_div_iff_of_pos_right hwpos).mpr (by linarith : 2 * p.x < 2 * q.x)
      simp only
      linarith
    · intro hlt
      have := (div_lt_div_iff_of_pos_right hhpos).mpr (by linarith : 2 * p.y < 2 * q.y)
      simp only
      linarith

/-- Witness of C5: with size 4 x 2 the point (1, 3/2) maps to (-1/2, -1/2). -/
theorem to_gl_coordinates_formula_witness :
    (Vector2f.mk 4 2).x ≠ 0 ∧ (Vector2f.mk 4 2).y ≠ 0 ∧
      to_gl_coordinates ⟨4, 2⟩ ⟨1, 3 / 2⟩ =
        ⟨2 * (Vector2f.mk 1 (3 / 2)).x / (Vector2f.mk 4 2).x - 1,
          1 - 2 * (Vector2f.mk 1 (3 / 2)).y / (Vector2f.mk 4 2).y⟩ :=
  ⟨by norm_num, by norm_num,
    (to_gl_coordinates_formula ⟨4, 2⟩ (by norm_num) (by norm_num)).1 ⟨1, 3 / 2⟩⟩

/-! ## Separators and column lookup -/

/-- The sibling setter `set_show_column_separators` hands its argument to the toolkit, so the
getter returns it. -/
theorem get_set_show_column_separators (self : ColumnView) (b : Bool) :
    (self.set_show_column_separators b).get_show_column_separators = b := rfl

/-- Whatever its argument, `set_show_row_separators` leaves the property set to `true`. -/
theorem get_set_show_row_separators (self : ColumnView) (b : Bool) :
    (self.set_show_row_separators b).get_show_row_separators = true := rfl

/-- C6 (the code at the failing input): on a view whose row separators are hidden,
`set_show_row_separators(false)` followed by `get_show_row_separators()` returns `true`, not
`false`; the value handed to the toolkit setter is `true`. -/
theorem set_show_row_separators_false_shows :
    (ColumnView.set_show_row_separators ⟨[], [], false, false, []⟩ false).get_show_row_separators
        = true ∧
      ColumnView.set_show_row_separators ⟨[], [], false, false, []⟩ false =
        gtk_column_view_set_show_row_separators ⟨[], [], false, false, []⟩ true :=
  ⟨rfl, rfl⟩

/-- The message of `get_column_at` is logged exactly when `column_i > n`, and the returned wrapper
holds the item of the column list at the position `column_i` narrowed to 32 bits (null when out
of range). -/
theorem get_column_at_spec (self : ColumnView) (column_i : Nat) :
    ((self.get_column_at column_i).2.trace =
        if column_i > self.get_n_columns then
          self.trace ++ [Call.log_critical (get_column_at_message column_i self.get_n_columns)]
        else self.trace) ∧
      (self.get_column_at column_i).1 =
        Column.mk (g_list_model_get_item self.columns (column_i % 2 ^ 32)) := by
  constructor
  · simp only [ColumnView.get_column_at, ColumnView.get_n_columns]
    split_ifs <;> rfl
  · rfl

/-- C7 (the code at the failing input): on a view with two columns, `get_column_at(2)` logs
nothing (the state, trace included, is unchanged) and returns a wrapper of the null pointer,
although 2 is not a valid column index. -/
theorem get_column_at_n_columns_silent :
    ColumnView.get_column_at ⟨[⟨1, "a"⟩, ⟨2, "b"⟩], [], false, false, []⟩ 2 =
      (Column.mk none, ⟨[⟨1, "a"⟩, ⟨2, "b"⟩], [], false, false, []⟩) := by
  decide

/-- One turn of the loop of `get_column_with_title` at an index holding column `c`. -/
theorem get_column_with_title_loop_step (model : List GtkColumnViewColumn) (title : String)
    (i : Nat) (c : GtkColumnViewColumn) (hc : model[i]? = some c) :
    get_column_with_title_loop model title i =
      if c.title = title then some (some c.addr)
      else get_column_with_title_loop model title (i + 1) := by
  have hi : i < model.length := (List.getElem?_eq_some_iff.mp hc).1
  rw [get_column_with_title_loop, if_pos hi]
  simp [g_list_model_get_item, hc]

/-- The loop of `get_column_with_title` is over once the index has left the column list. -/
theorem get_column_with_title_loop_end (model : List GtkColumnViewColumn) (title : String)
    (i : Nat) (hi : model.length ≤ i) : get_column_with_title_loop model title i = none := by
  rw [get_column_with_title_loop, if_neg (by omega)]

/-- The loop of `get_column_with_title` runs to its end exactly when no column from index `i` on
has the title. -/
theorem get_column_with_title_loop_eq_none (model : List GtkColumnViewColumn) (title : String)
    (i : Nat) :
    get_column_with_title_loop model title i = none ↔
      ∀ m c, i ≤ m → model[m]? = some c → c.title ≠ title := by
  generalize hk : model.length - i = k
  induction k generalizing i with
  | zero =>
    rw [get_column_with_title_loop_end _ _ _ (by omega)]
    refine ⟨fun _ m c him hc => ?_, fun _ => rfl⟩
    have := (List.getElem?_eq_some_iff.mp hc).1
    omega
  | succ k ih =>
    have hi : i < model.length := by omega
    rw [get_column_with_title_loop_step model title i model[i] (List.getElem?_eq_getElem hi)]
    by_cases ht : model[i].title = title
    · rw [if_pos ht]
      refine ⟨fun h => (by cases h), fun h => ?_⟩
      exact absurd ht (h i model[i] le_rfl (List.getElem?_eq_getElem hi))
    · rw [if_neg ht, ih (i + 1) (by omega)]
      refine ⟨fun h m c him hc => ?_, fun h m c him hc => h m c (by omega) hc⟩
      by_cases hm : m = i
      · subst hm
        rw [List.getElem?_eq_getElem hi] at hc
        cases hc
        exact ht
      · exact h m c (by omega) hc

/-- When the loop of `get_column_with_title` returns, it returns the address of the first column
from index `i` on that has the title. -/
theorem get_column_with_title_loop_eq_some (model : List GtkColumnViewColumn) (title : String)
    (i : Nat) (out : Ptr) (h : get_column_with_title_loop model title i = some out) :
    ∃ j c, i ≤ j ∧ model[j]? = some c ∧ c.title = title ∧ out = some c.addr ∧
      ∀ m c', i ≤ m → m < j → model[m]? = some c' → c'.title ≠ title := by
  generalize hk : model.length - i = k
  induction k generalizing i with
  | zero =>
    rw [get_column_with_title_loop_end _ _ _ (by omega)] at h
    cases h
  | succ k ih =>
    have hi : i < model.length := by omega
    rw [get_column_with_title_loop_step model title i model[i] (List.getElem?_eq_getElem hi)] at h
    by_cases ht : model[i].title = title
    · rw [if_pos ht] at h
      cases h
      exact ⟨i, model[i], le_rfl, List.getElem?_eq_getElem hi, ht, rfl,
        fun m c' h1 h2 => by omega⟩
    · rw [if_neg ht] at h
      obtain ⟨j, c, hij, hc, hct, hout, hmin⟩ := ih (i + 1) h (by omega)
      refine ⟨j, c, by omega, hc, hct, hout, fun m c' h1 h2 hc' => ?_⟩
      by_cases hm : m = i
      · subst hm
        rw [List.getElem?_eq_getElem hi] at hc'
        cases hc'
        exact ht
      · exact hmin m c' (by omega) h2 hc'

/-- The loop of `has_column_with_title` returns `true` exactly when the loop of
`get_column_with_title` returns a column. -/
theorem has_column_with_title_loop_eq (model : List GtkColumnViewColumn) (title : String)
    (i : Nat) :
    has_column_with_title_loop model title i =
      (get_column_with_title_loop model title i).isSome := by
  generalize hk : model.length - i = k
  induction k generalizing i with
  | zero =>
    rw [get_column_with_title_loop_end _ _ _ (by omega), has_column_with_title_loop,
      if_neg (by omega)]
    rfl
  | succ k ih =>
    have hi : i < model.length := by omega
    rw [get_column_with_title_loop_step model title i model[i] (List.getElem?_eq_getElem hi),
      has_column_with_title_loop, if_pos hi]
    by_cases ht : model[i].title = title
    · simp [ht, List.getElem?_eq_getElem hi]
    · simp [ht, List.getElem?_eq_getElem hi, ih (i + 1) (by omega)]

/-- C8: `get_column_with_title(title)` returns the column of lowest index whose title is `title`
and leaves the state (trace included) unchanged when such a column exists; when no column has the
title it logs the critical message "In ColumnView::get_column_with_title: No column with title"
followed by the title between backquotes, and returns a wrapper of the null pointer. -/
theorem get_column_with_title_spec (self : ColumnView) (title : String) :
    (∀ (i : Nat) (c : GtkColumnViewColumn), self.columns[i]? = some c → c.title = title →
        (∀ (j : Nat) (c' : GtkColumnViewColumn), j < i → self.columns[j]? = some c' →
          c'.title ≠ title) →
        self.get_column_with_title title = (Column.mk (some c.addr), self)) ∧
      ((∃ c ∈ self.columns, c.title = title) →
        ∃ (i : Nat) (c : GtkColumnViewColumn), self.columns[i]? = some c ∧ c.title = title ∧
          (∀ (j : Nat) (c' : GtkColumnViewColumn), j < i → self.columns[j]? = some c' →
            c'.title ≠ title) ∧
          self.get_column_with_title title = (Column.mk (some c.addr), self)) ∧
      ((∀ c ∈ self.columns, c.title ≠ title) →
        self.get_column_with_title title =
          (Column.mk none,
            { self with
              trace :=
                self.trace ++
                  [Call.log_critical
                    ("In ColumnView::get_column_with_title: No column with title \x60" ++ title ++
                      "\x60")] })) := by
  refine ⟨fun i c hc ht hmin => ?_, fun hex => ?_, fun hnone => ?_⟩
  · cases hloop : get_column_with_title_loop self.columns title 0 with
    | none =>
      exact absurd ht
        ((get_column_with_title_loop_eq_none _ _ _).mp hloop i c (Nat.zero_le i) hc)
    | some out =>
      obtain ⟨j, c', -, hc', ht', hout, hmin'⟩ :=
        get_column_with_title_loop_eq_some _ _ _ _ hloop
      have hji : j = i := by
        rcases Nat.lt_trichotomy j i with hlt | heq | hgt
        · exact absurd ht' (hmin j c' hlt hc')
        · exact heq
        · exact absurd ht (hmin' i c (Nat.zero_le i) hgt hc)
      subst hji
      rw [hc] at hc'
      cases hc'
      simp [ColumnView.get_column_with_title, hloop, hout]
  · cases hloop : get_column_with_title_loop self.columns title 0 with
    | none =>
      obtain ⟨c, hmem, ht⟩ := hex
      obtain ⟨i, hi⟩ := List.getElem?_of_mem hmem
      exact absurd ht
        ((get_column_with_title_loop_eq_none _ _ _).mp hloop i c (Nat.zero_le i) hi)
    | some out =>
      obtain ⟨j, c', -, hc', ht', hout, hmin'⟩ :=
        get_column_with_title_loop_eq_some _ _ _ _ hloop
      refine ⟨j, c', hc', ht', fun m c'' hm hc'' => hmin' m c'' (Nat.zero_le m) hm hc'', ?_⟩
      simp [ColumnView.get_column_with_title, hloop, hout]
  · have hloop : get_column_with_title_loop self.columns title 0 = none :=
      (get_column_with_title_loop_eq_none _ _ _).mpr
        (fun m c _ hc => hnone c (List.getElem?_mem hc))
    simp [ColumnView.get_column_with_title, hloop, get_column_with_title_message]

/-- Witness of C8: with columns titled a, b, b at addresses 1, 2, 3, the title b gives the column
at address 2 and an unchanged state, and the title z gives the null wrapper and the message
with z between backquotes. -/
theorem get_column_with_title_spec_witness :
    ColumnView.get_column_with_title ⟨[⟨1, "a"⟩, ⟨2, "b"⟩, ⟨3, "b"⟩], [], false, false, []⟩ "b" =
        (Column.mk (some 2), ⟨[⟨1, "a"⟩, ⟨2, "b"⟩, ⟨3, "b"⟩], [], false, false, []⟩) ∧
      ColumnView.get_column_with_title ⟨[⟨1, "a"⟩, ⟨2, "b"⟩, ⟨3, "b"⟩], [], false, false, []⟩ "z" =
        (Column.mk none, ⟨[⟨1, "a"⟩, ⟨2, "b"⟩, ⟨3, "b"⟩], [], false, false,
          [Call.log_critical
            "In ColumnView::get_column_with_title: No column with title \x60z\x60"]⟩) :=
  ⟨(get_column_with_title_spec ⟨[⟨1, "a"⟩, ⟨2, "b"⟩, ⟨3, "b"⟩], [], false, false, []⟩ "b").1
      1 ⟨2, "b"⟩ rfl rfl (by
        intro j c' hj hc'
        have hj0 : j = 0 := by omega
        subst hj0
        cases hc'
        decide),
    (get_column_with_title_spec ⟨[⟨1, "a"⟩, ⟨2, "b"⟩, ⟨3, "b"⟩], [], false, false, []⟩ "z").2.2
      (by decide)⟩

/-- C9: `has_column_with_title(title)` returns `true` if and only if some column has exactly that
title, which holds if and only if `get_column_with_title(title)` returns a wrapper whose native
pointer is not null. -/
theorem has_column_with_title_iff (self : ColumnView) (title : String) :
    (self.has_column_with_title title = true ↔ ∃ c ∈ self.columns, c.title = title) ∧
      ((∃ c ∈ self.columns, c.title = title) ↔
        (self.get_column_with_title title).1._native ≠ none) := by
  have hex : (∃ c ∈ self.columns, c.title = title) ↔
      get_column_with_title_loop self.columns title 0 ≠ none := by
    rw [Ne, get_column_with_title_loop_eq_none]
    constructor
    · rintro ⟨c, hmem, ht⟩ hall
      obtain ⟨i, hi⟩ := List.getElem?_of_mem hmem
      exact hall i c (Nat.zero_le i) hi ht
    · intro hall
      by_contra hno
      exact hall (fun m c _ hc ht => hno ⟨c, List.getElem?_mem hc, ht⟩)
  constructor
  · rw [hex, ColumnView.has_column_with_title, has_column_with_title_loop_eq,
      Option.isSome_iff_ne_none]
  · rw [hex]
    cases hloop : get_column_with_title_loop self.columns title 0 with
    | none => simp [ColumnView.get_column_with_title, hloop]
    | some out =>
      obtain ⟨j, c, -, -, -, hout, -⟩ := get_column_with_title_loop_eq_some _ _ _ _ hloop
      simp [ColumnView.get_column_with_title, hloop, hout]

/-! ## `PopoverButton::set_is_circular` -/

theorem has_css_class_add (classes : List String) (c d : String) :
    gtk_widget_has_css_class (gtk_widget_add_css_class classes c) d =
      (gtk_widget_has_css_class classes d || d == c) := by
  unfold gtk_widget_add_css_class gtk_widget_has_css_class
  rw [Bool.eq_iff_iff]
  by_cases h : classes.contains c = true
  · rw [if_pos h]
    simp only [Bool.or_eq_true, beq_iff_eq]
    constructor
    · exact fun hd => Or.inl hd
    · rintro (hd | rfl)
      · exact hd
      · exact h
  · rw [if_neg h]
    simp

theorem has_css_class_remove (classes : List String) (c d : String) :
    gtk_widget_has_css_class (gtk_widget_remove_css_class classes c) d =
      (gtk_widget_has_css_class classes d && d != c) := by
  unfold gtk_widget_remove_css_class gtk_widget_has_css_class
  rw [Bool.eq_iff_iff]
  simp [List.mem_filter]

theorem remove_css_class_of_not_has (classes : List String) (c : String)
    (h : gtk_widget_has_css_class classes c = false) :
    gtk_widget_remove_css_class classes c = classes := by
  unfold gtk_widget_remove_css_class
  unfold gtk_widget_has_css_class at h
  rw [List.filter_eq_self]
  intro a ha
  have hne : a ≠ c := by
    rintro rfl
    have : classes.contains a = true := by simpa using ha
    rw [h] at this
    cases this
  simpa using hne

/-- The classes other than `css_class`, in their order. -/
theorem filter_add_css_class (classes : List String) (c : String) :
    (gtk_widget_add_css_class classes c).filter (fun d => d != c) =
      classes.filter (fun d => d != c) := by
  unfold gtk_widget_add_css_class
  split_ifs
  · rfl
  · simp

theorem filter_remove_css_class (classes : List String) (c : String) :
    (gtk_widget_remove_css_class classes c).filter (fun d => d != c) =
      classes.filter (fun d => d != c) := by
  unfold gtk_widget_remove_css_class
  simp [List.filter_filter]

/-- C10: after `set_is_circular(b)`, `get_is_circular()` returns `b`; the call adds the class
`circular` when `b` is true and the class is absent, removes it when `b` is false and the class
is present, and otherwise returns the state unchanged; applying it twice equals applying it once;
every other css class is present after the call exactly when it was before, the other classes
keep their order, and no other part of the state changes. -/
theorem set_is_circular_spec (self : PopoverButton) (b : Bool) :
    (self.set_is_circular b).get_is_circular = b ∧
      (b = true → self.get_is_circular = false →
        self.set_is_circular b =
          { self with css_classes := gtk_widget_add_css_class self.css_classes "circular" }) ∧
      (b = false → self.get_is_circular = true →
        self.set_is_circular b =
          { self with css_classes := gtk_widget_remove_css_class self.css_classes "circular" }) ∧
      (self.get_is_circular = b → self.set_is_circular b = self) ∧
      (self.set_is_circular b).set_is_circular b = self.set_is_circular b ∧
      (∀ c : String, c ≠ "circular" →
        gtk_widget_has_css_class (self.set_is_circular b).css_classes c =
          gtk_widget_has_css_class self.css_classes c) ∧
      (self.set_is_circular b).css_classes.filter (fun c => c != "circular") =
        self.css_classes.filter (fun c => c != "circular") ∧
      { self.set_is_circular b with css_classes := self.css_classes } = self := by
  have hget : ∀ (s : PopoverButton) (b : Bool), (s.set_is_circular b).get_is_circular = b := by
    intro s b
    cases b <;> cases h : gtk_widget_has_css_class s.css_classes "circular" <;>
      simp [PopoverButton.set_is_circular, h, PopoverButton.get_is_circular,
        has_css_class_add, has_css_class_remove]
  have hsame : ∀ (s : PopoverButton) (b : Bool), s.get_is_circular = b →
      s.set_is_circular b = s := by
    intro s b hb
    cases b <;> simp [PopoverButton.set_is_circular, hb]
  refine ⟨hget self b, ?_, ?_, hsame self b, hsame _ b (hget self b), ?_, ?_, ?_⟩
  · intro hb hc
    simp [PopoverButton.set_is_circular, hb, hc]
  · intro hb hc
    simp [PopoverButton.set_is_circular, hb, hc]
  · intro c hc
    cases b <;> cases h : gtk_widget_has_css_class self.css_classes "circular" <;>
      simp [PopoverButton.set_is_circular, PopoverButton.get_is_circular, h, has_css_class_add,
        has_css_class_remove, hc]
  · cases b <;> cases h : gtk_widget_has_css_class self.css_classes "circular" <;>
      simp [PopoverButton.set_is_circular, PopoverButton.get_is_circular, h,
        filter_add_css_class, filter_remove_css_class]
  · cases b <;> cases h : gtk_widget_has_css_class self.css_classes "circular" <;>
      simp [PopoverButton.set_is_circular, PopoverButton.get_is_circular, h]

/-- Witness of C10: a button with classes flat, circular, wide; `set_is_circular(false)` removes
`circular` and keeps the two others, and `set_is_circular(true)` on a button with class flat
only adds `circular`. -/
theorem set_is_circular_spec_witness :
    PopoverButton.set_is_circular ⟨["flat", "circular", "wide"], none, none, true, true,
        none⟩ false =
        ⟨["flat", "wide"], none, none, true, true, none⟩ ∧
      PopoverButton.set_is_circular ⟨["flat"], none, none, true, true, none⟩ true =
        ⟨["flat", "circular"], none, none, true, true, none⟩ :=
  ⟨(set_is_circular_spec ⟨["flat", "circular", "wide"], none, none, true, true, none⟩
      false).2.2.1 rfl (by decide),
    (set_is_circular_spec ⟨["flat"], none, none, true, true, none⟩ true).2.1 rfl
      (by decide)⟩

/-! ## `Popover::set_child`, `Popover::remove_child`, `Popover::get_child` -/

/-- C11 (amended): `get_child()` after `set_child(c)` returns a pointer to `c`, and `get_child()`
after `remove_child()` returns null whatever child was set before; after `remove_child()` both
the record and the toolkit's child are null; and after `set_child(c)` for a widget `c` that the
self-insertion check lets pass, the wrapper records `c` and the toolkit holds the native widget
of `c`. -/
theorem popover_child_spec (self : Popover) (c : Widget) (returns : Bool) :
    (self.set_child c returns).get_child = some c ∧
      self.remove_child.get_child = none ∧
      (self.set_child c returns).remove_child.get_child = none ∧
      (returns = false →
        (self.set_child c returns)._child = some c ∧
          (self.set_child c returns).native_child = c.native ∧
          (self.set_child c returns).native_child =
            (self.set_child c returns).get_child.bind Widget.native) ∧
      (self.remove_child._child = none ∧ self.remove_child.native_child = none ∧
        self.remove_child.native_child = self.remove_child.get_child.bind Widget.native) := by
  refine ⟨?_, rfl, rfl, ?_, rfl, rfl, rfl⟩
  · cases returns <;> rfl
  · intro h
    subst h
    exact ⟨rfl, rfl, rfl⟩

/-- Witness of C11 (amended): a popover holding widget 5 is given the widget with native pointer
8; the toolkit's child is then 8. -/
theorem popover_child_spec_witness :
    (Popover.set_child ⟨some 1, some 1, some ⟨some 5⟩, some 5⟩ ⟨some 8⟩ false).native_child =
      some 8 :=
  ((popover_child_spec ⟨some 1, some 1, some ⟨some 5⟩, some 5⟩ ⟨some 8⟩ false).2.2.2.1 rfl).2.1

/-- Counterexample to C11 as stated: the popover with native widget 1 and without a child is
given itself as child, and the self-insertion check leaves `set_child`.  The member `_child` is
already assigned, so `get_child()` returns the widget, but the toolkit's popover still has no
child: the child recorded by the wrapper and the child handed to the toolkit differ. -/
theorem popover_set_child_self_insertion_counterexample :
    (Popover.set_child ⟨some 1, some 2, none, none⟩ ⟨some 1⟩ true).get_child = some ⟨some 1⟩ ∧
      (Popover.set_child ⟨some 1, some 2, none, none⟩ ⟨some 1⟩ true).native_child = none ∧
      (Popover.set_child ⟨some 1, some 2, none, none⟩ ⟨some 1⟩ true).native_child ≠
        (Popover.set_child ⟨some 1, some 2, none, none⟩ ⟨some 1⟩ true).get_child.bind
          Widget.native := by
  decide

/-! ## `PopoverButton`: the records of the popover and of the popover menu -/

/-- On a button whose `_internal` points to a struct: after `set_popover(p)` the recorded popover
is the internal of `p` and the menu is null; after `set_popover_menu(m)` the recorded menu is the
internal of `m` and the popover is null; after `remove_popover()` both are null; `set_child`,
`remove_child`, `set_is_circular`, `set_always_show_arrow` and `set_has_frame` leave the struct
as it was. -/
theorem popover_button_records_of_internal (self : PopoverButton)
    (internal : PopoverButtonInternal) (h : self._internal = some internal) (p : Popover)
    (m : PopoverMenu) (child : Widget) (returns b : Bool) :
    (∃ after, self.set_popover p = some after ∧
        after._internal = some { internal with menu := none, popover := p.internal }) ∧
      (∃ after, self.set_popover_menu m = some after ∧
        after._internal = some { internal with menu := m.internal, popover := none }) ∧
      (∃ after, self.remove_popover = some after ∧
        after._internal = some { internal with menu := none, popover := none }) ∧
      (∃ after, self.set_child child returns = some after ∧ after._internal = some internal) ∧
      self.remove_child._internal = some internal ∧
      (self.set_is_circular b)._internal = some internal ∧
      (self.set_always_show_arrow b)._internal = some internal ∧
      (self.set_has_frame b)._internal = some internal := by
  refine ⟨?_, ?_, ?_, ?_, h, ?_, h, h⟩
  · simp [PopoverButton.set_popover, h]
  · simp [PopoverButton.set_popover_menu, h]
  · simp [PopoverButton.remove_popover, h]
  · cases returns <;> simp [PopoverButton.set_child, h]
  · unfold PopoverButton.set_is_circular
    split_ifs <;> exact h

/-- On a button whose `_internal` points to a struct one call returns and keeps the records such
that at most one is non-null. -/
theorem at_most_one_record_run (self : PopoverButton) (internal : PopoverButtonInternal)
    (hinternal : self._internal = some internal) (call : PopoverButtonCall)
    (h : internal.at_most_one_record = true) :
    ∃ after next, self.run call = some after ∧ after._internal = some next ∧
      next.at_most_one_record = true := by
  obtain ⟨h1, h2, h3, -⟩ :=
    popover_button_records_of_internal self internal hinternal ⟨none, none, none, none⟩
      ⟨none, none⟩ ⟨none⟩ false false
  cases call with
  | set_child child returns =>
    obtain ⟨after, hafter, hi⟩ :=
      (popover_button_records_of_internal self internal hinternal ⟨none, none, none, none⟩
        ⟨none, none⟩ child returns false).2.2.2.1
    exact ⟨after, internal, hafter, hi, h⟩
  | remove_child => exact ⟨_, internal, rfl, hinternal, h⟩
  | set_popover popover =>
    obtain ⟨after, hafter, hi⟩ :=
      (popover_button_records_of_internal self internal hinternal popover
        ⟨none, none⟩ ⟨none⟩ false false).1
    exact ⟨after, _, hafter, hi, rfl⟩
  | set_popover_menu popover_menu =>
    obtain ⟨after, hafter, hi⟩ :=
      (popover_button_records_of_internal self internal hinternal ⟨none, none, none, none⟩
        popover_menu ⟨none⟩ false false).2.1
    exact ⟨after, _, hafter, hi, by simp [PopoverButtonInternal.at_most_one_record]⟩
  | remove_popover =>
    obtain ⟨after, hafter, hi⟩ := h3
    exact ⟨after, _, hafter, hi, rfl⟩
  | set_always_show_arrow b => exact ⟨_, internal, rfl, hinternal, h⟩
  | set_has_frame b => exact ⟨_, internal, rfl, hinternal, h⟩
  | set_is_circular b =>
    refine ⟨_, internal, rfl, ?_, h⟩
    exact (popover_button_records_of_internal self internal hinternal ⟨none, none, none, none⟩
      ⟨none, none⟩ ⟨none⟩ false b).2.2.2.2.2.1

/-- On a button whose `_internal` points to a struct every sequence of calls returns and keeps
the records such that at most one is non-null. -/
theorem at_most_one_record_run_all (calls : List PopoverButtonCall) (self : PopoverButton)
    (internal : PopoverButtonInternal) (hinternal : self._internal = some internal)
    (h : internal.at_most_one_record = true) :
    ∃ after next, self.run_all calls = some after ∧ after._internal = some next ∧
      next.at_most_one_record = true := by
  induction calls generalizing self internal with
  | nil => exact ⟨self, internal, rfl, hinternal, h⟩
  | cons call rest ih =>
    obtain ⟨mid, next, hmid, hnext, hone⟩ := at_most_one_record_run self internal hinternal call h
    obtain ⟨after, last, hafter, hlast, hrec⟩ := ih mid next hnext hone
    exact ⟨after, last, by rw [PopoverButton.run_all, hmid]; exact hafter, hlast, hrec⟩

/-- C20 (the code at the failing input): a button made by the constructor `PopoverButton()` has
no internal struct, since the constructor never calls `popover_button_internal_new`; on it
`set_popover`, `set_popover_menu` and `remove_popover` write, and `set_child` reads, through
`_internal`, which points to no struct: none of the four calls has a defined result, and there
are no records for them to set or keep. -/
theorem popover_button_unset_internal (css_classes : List String) (has_frame : Bool)
    (p : Popover) (m : PopoverMenu) (child : Widget) :
    (PopoverButton.new css_classes has_frame)._internal = none ∧
      (PopoverButton.new css_classes has_frame).set_popover p = none ∧
      (PopoverButton.new css_classes has_frame).set_popover_menu m = none ∧
      (PopoverButton.new css_classes has_frame).remove_popover = none ∧
      (PopoverButton.new css_classes has_frame).set_child child false = none :=
  ⟨rfl, rfl, rfl, rfl, rfl⟩

/-! ## The list item factory callbacks -/

/-- Row `row_i` after `set_widget_at` has returned for a column with a native object: it caches
the widget for that column, and for every other column what the row cached before. -/
theorem set_widget_at_row (self after : ColumnView) (a : Nat) (row_i : Nat) (widget : Widget)
    (fuel : Nat) (hrows : self.list_store.length < 2 ^ 32)
    (hafter : self.set_widget_at (Column.mk (some a)) row_i widget fuel = some after) :
    ∃ item, after.list_store[row_i]? = some item ∧
      item.widgets.find (some a) = some widget.native ∧
      ∀ c, c ≠ some a → item.widgets.find c = self.cell row_i c := by
  obtain ⟨-, item, hitem, hstore, -, -⟩ :=
    set_widget_at_some self after a row_i widget fuel hrows hafter
  have hlt : row_i < (rows_completed row_i self.list_store).length := by
    rw [rows_completed_length]; omega
  refine ⟨_, by rw [hstore, List.getElem?_set_self hlt], ?_, fun c hc => ?_⟩
  · exact StdMap.find_insert_or_assign_self _ _ _
  · rw [StdMap.find_insert_or_assign_other _ _ _ _ hc]
    simp only [ColumnView.cell]
    by_cases hr : row_i < self.list_store.length
    · rw [rows_completed_getElem?_old _ _ _ hr] at hitem
      rw [hitem, Option.some_bind]
    · have hnone : self.list_store[row_i]? = none := List.getElem?_eq_none_iff.mpr (by omega)
      rw [rows_completed_getElem?_new _ _ _ (by omega) le_rfl] at hitem
      cases hitem
      rw [hnone]
      rfl

/-- C13: `on_list_item_factory_bind` sets the child of the list item to the widget its row item
caches for the column of the callback when there is one and to null otherwise, and
`on_list_item_factory_unbind` always sets the child to null; neither changes the row item.  So
after `set_widget_at(c, r, w)` has returned for a column with a native object (on a list store
of fewer than `2 ^ 32` rows), binding row `r` in column `c` shows `w`, and binding row `r` in
another column that had no widget in that row shows none; the call does return for every
`r < 2 ^ 32 - 1`, once the condition of its row loop may be tested often enough. -/
theorem list_item_factory_bind_spec (list_item : GtkListItem) (column : Ptr) :
    (∀ w, list_item.item.widgets.find column = some w →
        on_list_item_factory_bind list_item column = { list_item with child := w }) ∧
      (list_item.item.widgets.find column = none →
        on_list_item_factory_bind list_item column = { list_item with child := none }) ∧
      on_list_item_factory_unbind list_item column = { list_item with child := none } ∧
      (∀ (self after : ColumnView) (c : Column) (r : Nat) (w : Widget) (fuel : Nat),
        c._native ≠ none → self.list_store.length < 2 ^ 32 →
        self.set_widget_at c r w fuel = some after →
        ∃ item, after.list_store[r]? = some item ∧
          (on_list_item_factory_bind { list_item with item := item } c._native).child
            = w.native ∧
          ∀ c', c' ≠ c._native → self.cell r c' = none →
            (on_list_item_factory_bind { list_item with item := item } c').child = none) ∧
      (∀ (self : ColumnView) (c : Column) (r : Nat) (w : Widget) (fuel : Nat),
        c._native ≠ none → self.list_store.length < 2 ^ 32 → r < 2 ^ 32 - 1 →
        r + 1 - self.list_store.length < fuel →
        ∃ after, self.set_widget_at c r w fuel = some after) := by
  refine ⟨fun w hw => ?_, fun hnone => ?_, rfl, fun self after c r w fuel hc hrows hafter => ?_,
    fun self c r w fuel hc hrows hr hfuel => ?_⟩
  · simp [on_list_item_factory_bind, hw, gtk_list_item_set_child]
  · simp [on_list_item_factory_bind, hnone, gtk_list_item_set_child]
  · obtain ⟨native⟩ := c
    cases native with
    | none => exact absurd rfl hc
    | some a =>
      obtain ⟨item, hitem, hself, hother⟩ := set_widget_at_row self after a r w fuel hrows hafter
      refine ⟨item, hitem, ?_, fun c' hc' hcell => ?_⟩
      · simp [on_list_item_factory_bind, hself, gtk_list_item_set_child]
      · have hfind : item.widgets.find c' = none := by rw [hother c' hc', hcell]
        simp [on_list_item_factory_bind, hfind, gtk_list_item_set_child]
  · obtain ⟨native⟩ := c
    cases native with
    | none => exact absurd rfl hc
    | some a => exact set_widget_at_returns self a r w fuel hrows hr hfuel

/-- Witness of C13: a list item bound to a row that caches widget 7 for column 1; binding it in
column 1 shows widget 7, binding it in column 2 shows none; and after widget 9 is set at row 0 of
column 1, binding row 0 in column 1 shows widget 9. -/
theorem list_item_factory_bind_spec_witness :
    on_list_item_factory_bind ⟨⟨[(some 1, some 7)]⟩, some 3⟩ (some 1) =
        ⟨⟨[(some 1, some 7)]⟩, some 7⟩ ∧
      on_list_item_factory_bind ⟨⟨[(some 1, some 7)]⟩, some 3⟩ (some 2) =
        ⟨⟨[(some 1, some 7)]⟩, none⟩ ∧
      ∃ after item,
        ColumnView.set_widget_at ⟨[], [⟨[(some 1, some 7)]⟩], false, false, []⟩
          (Column.mk (some 1)) 0 ⟨some 9⟩ 1 = some after ∧
        after.list_store[0]? = some item ∧
        (on_list_item_factory_bind ⟨item, some 3⟩ (some 1)).child = some 9 :=
  ⟨(list_item_factory_bind_spec ⟨⟨[(some 1, some 7)]⟩, some 3⟩ (some 1)).1 (some 7) rfl,
    (list_item_factory_bind_spec ⟨⟨[(some 1, some 7)]⟩, some 3⟩ (some 2)).2.1 rfl,
    let ⟨after, hafter⟩ :=
      (list_item_factory_bind_spec ⟨⟨[(some 1, some 7)]⟩, some 3⟩ (some 1)).2.2.2.2
        ⟨[], [⟨[(some 1, some 7)]⟩], false, false, []⟩ (Column.mk (some 1)) 0 ⟨some 9⟩ 1
        (by decide) (by decide) (by decide) (by decide)
    let ⟨item, h1, h2, _⟩ :=
      (list_item_factory_bind_spec ⟨⟨[(some 1, some 7)]⟩, some 3⟩ (some 1)).2.2.2.1
        ⟨[], [⟨[(some 1, some 7)]⟩], false, false, []⟩ after (Column.mk (some 1)) 0 ⟨some 9⟩ 1
        (by decide) (by decide) hafter
    ⟨after, item, hafter, h1, h2⟩⟩

/-! ## `RenderArea::add_render_task` and `RenderArea::clear_render_tasks` -/

theorem ref_counts_after_append (counts : Ptr → Nat) (l₁ l₂ : List Call) :
    ref_counts_after counts (l₁ ++ l₂) = ref_counts_after (ref_counts_after counts l₁) l₂ := by
  induction l₁ generalizing counts with
  | nil => rfl
  | cons c rest ih => exact ih (Call.apply counts c)

/-- References taken one per list entry add the number of entries of an object to its count. -/
theorem ref_counts_after_map_ref (counts : Ptr → Nat) (tasks : List Ptr) (p : Ptr) :
    ref_counts_after counts (tasks.map Call.g_object_ref) p = counts p + tasks.count p := by
  induction tasks generalizing counts with
  | nil => simp [ref_counts_after]
  | cons t rest ih =>
    rw [List.map_cons, ref_counts_after, ih, List.count_cons]
    by_cases h : p = t
    · subst h
      simp [Call.apply]
      omega
    · have h' : ¬ (t == p) = true := by simpa using Ne.symm h
      simp [Call.apply, h, h']

/-- References released one per list entry lower the count of an object by the number of its
entries. -/
theorem ref_counts_after_map_unref (counts : Ptr → Nat) (tasks : List Ptr) (p : Ptr) :
    ref_counts_after counts (tasks.map Call.g_object_unref) p = counts p - tasks.count p := by
  induction tasks generalizing counts with
  | nil => simp [ref_counts_after]
  | cons t rest ih =>
    rw [List.map_cons, ref_counts_after, ih, List.count_cons]
    by_cases h : p = t
    · subst h
      simp [Call.apply]
      omega
    · have h' : ¬ (t == p) = true := by simpa using Ne.symm h
      simp [Call.apply, h, h']

/-- A sequence of `add_render_task` calls appends the tasks in order and takes one reference per
call; nothing else of the internal struct changes. -/
theorem foldl_add_render_task (self : RenderArea) (tasks : List Ptr) :
    tasks.foldl RenderArea.add_render_task self =
      { _internal := { self._internal with tasks := self._internal.tasks ++ tasks }
        trace := self.trace ++ tasks.map Call.g_object_ref } := by
  induction tasks generalizing self with
  | nil => simp
  | cons t rest ih =>
    rw [List.foldl_cons, ih]
    simp [RenderArea.add_render_task]

/-- C12 (amended): `add_render_task` appends the task at the end of the task list, keeping the
earlier tasks in order, and takes exactly one reference on it; `clear_render_tasks` releases
exactly one reference per list entry and leaves the list empty (as does the finalizer of the
internal struct).  For every sequence of `add_render_task` calls followed by `clear_render_tasks`
the list is empty afterwards, and the calls made are one `g_object_ref` per added task followed
by one `g_object_unref` per entry of the list, the entries it had before the sequence included;
when the list was empty before the sequence, the reference count of every object is what it was
before, also when a task was added more than once. -/
theorem render_tasks_balanced (self : RenderArea) (task : Ptr) (tasks : List Ptr) :
    ((self.add_render_task task)._internal.tasks = self._internal.tasks ++ [task] ∧
        (self.add_render_task task).trace = self.trace ++ [Call.g_object_ref task]) ∧
      (self.clear_render_tasks._internal.tasks = [] ∧
        self.clear_render_tasks.trace =
          self.trace ++ self._internal.tasks.map Call.g_object_unref ∧
        render_area_internal_finalize self._internal =
          self._internal.tasks.map Call.g_object_unref) ∧
      ((tasks.foldl RenderArea.add_render_task self).clear_render_tasks._internal.tasks = [] ∧
        (tasks.foldl RenderArea.add_render_task self).clear_render_tasks.trace =
          self.trace ++ (tasks.map Call.g_object_ref ++
            (self._internal.tasks ++ tasks).map Call.g_object_unref)) ∧
      (self._internal.tasks = [] →
        (tasks.foldl RenderArea.add_render_task self).clear_render_tasks.trace =
            self.trace ++ (tasks.map Call.g_object_ref ++ tasks.map Call.g_object_unref) ∧
          ∀ counts : Ptr → Nat,
            ref_counts_after counts
              (tasks.map Call.g_object_ref ++ tasks.map Call.g_object_unref) = counts) := by
  have htrace : (tasks.foldl RenderArea.add_render_task self).clear_render_tasks.trace =
      self.trace ++ (tasks.map Call.g_object_ref ++
        (self._internal.tasks ++ tasks).map Call.g_object_unref) := by
    rw [foldl_add_render_task]
    simp [RenderArea.clear_render_tasks]
  refine ⟨⟨rfl, rfl⟩, ⟨rfl, rfl, rfl⟩, ⟨rfl, htrace⟩, fun hempty => ⟨?_, fun counts => ?_⟩⟩
  · rw [htrace, hempty, List.nil_append]
  · funext p
    rw [ref_counts_after_append, ref_counts_after_map_unref, ref_counts_after_map_ref]
    omega

/-- Witness of C12 (amended): on a render area without tasks, the task at address 5 is added
twice and the task at address 6 once; after `clear_render_tasks` the count of task 5, which was
1, is 1. -/
theorem render_tasks_balanced_witness :
    (RenderArea.mk ⟨none, [], false, none, none, none, none⟩ [])._internal.tasks = [] ∧
      ref_counts_after (fun _ => 1)
        ([some 5, some 6, some 5].map Call.g_object_ref ++
          [some 5, some 6, some 5].map Call.g_object_unref) (some 5) = 1 :=
  ⟨rfl, congrFun (((render_tasks_balanced ⟨⟨none, [], false, none, none, none, none⟩, []⟩ none
    [some 5, some 6, some 5]).2.2.2 rfl).2 (fun _ => 1)) (some 5)⟩

/-- Counterexample to C12 as stated: the task list of the render area holds the task at address
5, and every object has two references.  The task at address 6 is added and the list is cleared:
the list is empty, task 6 has its two references again, but task 5, which the sequence never
added, has lost one. -/
theorem render_tasks_balanced_counterexample :
    (RenderArea.clear_render_tasks
        (List.foldl RenderArea.add_render_task
          ⟨⟨none, [some 5], false, none, none, none, none⟩, []⟩ [some 6])).trace =
        [Call.g_object_ref (some 6), Call.g_object_unref (some 5),
          Call.g_object_unref (some 6)] ∧
      ref_counts_after (fun _ => 2)
          [Call.g_object_ref (some 6), Call.g_object_unref (some 5),
            Call.g_object_unref (some 6)] (some 6) = 2 ∧
      ref_counts_after (fun _ => 2)
          [Call.g_object_ref (some 6), Call.g_object_unref (some 5),
            Call.g_object_unref (some 6)] (some 5) = 1 := by
  decide

/-! ## `RenderArea::on_render` and `RenderArea::on_resize` -/

theorem user_renders_append (l₁ l₂ : List GlCall) :
    user_renders (l₁ ++ l₂) = user_renders l₁ ++ user_renders l₂ := by
  induction l₁ with
  | nil => rfl
  | cons c rest ih => cases c <;> simp [user_renders, ih]

theorem user_renders_render_tasks (tasks : List Ptr) :
    user_renders (render_tasks tasks) = tasks := by
  induction tasks with
  | nil => rfl
  | cons t rest ih =>
    simp only [render_tasks, List.map_cons, user_renders] at ih ⊢
    rw [ih]

/-- A test that rejects every `render` call finds nothing in the calls of the task loop. -/
theorem filter_render_tasks_eq_nil (p : GlCall → Bool) (hp : ∀ t, p (GlCall.render t) = false)
    (tasks : List Ptr) : (render_tasks tasks).filter p = [] := by
  induction tasks with
  | nil => rfl
  | cons t rest ih =>
    simp only [render_tasks, List.map_cons] at ih ⊢
    rw [List.filter_cons_of_neg (by simp [hp t]), ih]

/-- A test that accepts every `render` call keeps all calls of the task loop. -/
theorem filter_render_tasks_eq_self (p : GlCall → Bool) (hp : ∀ t, p (GlCall.render t) = true)
    (tasks : List Ptr) : (render_tasks tasks).filter p = render_tasks tasks := by
  induction tasks with
  | nil => rfl
  | cons t rest ih =>
    simp only [render_tasks, List.map_cons] at ih ⊢
    rw [List.filter_cons_of_pos (hp t), ih]

/-- With a valid shared context and multisampling, `on_render` returns after these calls. -/
theorem on_render_msaa (gl : GlState) (internal : RenderAreaInternal)
    (hgl : GDK_IS_GL_CONTEXT gl = true) (hmsaa : internal.apply_msaa = true)
    (texture shape_task : Nat) (ht : internal.render_texture = some texture)
    (hs : internal.render_texture_shape_task = some shape_task) :
    on_render gl internal = Except.ok
      { internal := internal
        calls :=
          [GlCall.gtk_gl_area_make_current, GlCall.bind_as_render_target (some texture),
            GlCall.glClear, GlCall.glClearColor, GlCall.glEnable,
            GlCall.set_current_blend_mode] ++
          render_tasks internal.tasks ++
          [GlCall.glFlush, GlCall.unbind_as_render_target (some texture), GlCall.glClear,
            GlCall.glClearColor, GlCall.glEnable, GlCall.set_current_blend_mode,
            GlCall.render_shape_task (some shape_task), GlCall.glFlush]
        result := true } := by
  simp [on_render, hgl, hmsaa, ht, hs, RenderArea.clear, RenderArea.flush]

/-- With a valid shared context and without multisampling, `on_render` returns after these
calls. -/
theorem on_render_plain (gl : GlState) (internal : RenderAreaInternal)
    (hgl : GDK_IS_GL_CONTEXT gl = true) (hmsaa : internal.apply_msaa = false) :
    on_render gl internal = Except.ok
      { internal := internal
        calls :=
          [GlCall.gtk_gl_area_make_current, GlCall.glClear, GlCall.glClearColor, GlCall.glEnable,
            GlCall.set_current_blend_mode] ++
          render_tasks internal.tasks ++ [GlCall.glFlush]
        result := true } := by
  simp [on_render, hgl, hmsaa, RenderArea.clear, RenderArea.flush]

/-- Under the invariant, a struct with multisampling has a render texture and a shape task. -/
theorem msaa_invariant_some (internal : RenderAreaInternal)
    (hinv : internal.msaa_invariant = true) (hmsaa : internal.apply_msaa = true) :
    ∃ texture shape_task : Nat, internal.render_texture = some texture ∧
      internal.render_texture_shape_task = some shape_task := by
  simp only [RenderAreaInternal.msaa_invariant, hmsaa, if_true, Bool.and_eq_true] at hinv
  obtain ⟨⟨h1, -⟩, h3⟩ := hinv
  obtain ⟨texture, ht⟩ := Option.isSome_iff_exists.mp h1
  obtain ⟨shape_task, hs⟩ := Option.isSome_iff_exists.mp h3
  exact ⟨texture, shape_task, ht, hs⟩

/-- Under the invariant and with a valid shared context, `on_render` returns `TRUE`, leaves the
internal struct as it was and renders exactly the tasks of the list, in order. -/
theorem on_render_ok (gl : GlState) (internal : RenderAreaInternal)
    (hgl : GDK_IS_GL_CONTEXT gl = true) (hinv : internal.msaa_invariant = true) :
    ∃ r, on_render gl internal = Except.ok r ∧ r.result = true ∧ r.internal = internal ∧
      user_renders r.calls = internal.tasks := by
  cases hmsaa : internal.apply_msaa with
  | true =>
    obtain ⟨texture, shape_task, ht, hs⟩ := msaa_invariant_some internal hinv hmsaa
    refine ⟨_, on_render_msaa gl internal hgl hmsaa texture shape_task ht hs, rfl, rfl, ?_⟩
    simp [user_renders_append, user_renders_render_tasks, user_renders]
  | false =>
    refine ⟨_, on_render_plain gl internal hgl hmsaa, rfl, rfl, ?_⟩
    simp [user_renders_append, user_renders_render_tasks, user_renders]

/-- C14: with a valid shared context and the invariant of the internal struct, `on_render`
returns `TRUE`, leaves the internal struct and so the task list as it was, and the tasks rendered
by `RenderTask(internal).render()` are exactly the tasks of the list, each once and in insertion
order; a struct with the same task list (for instance with the other multisampling mode) gives
the same sequence, and so does `render_render_tasks`. -/
theorem on_render_user_tasks (gl : GlState) (internal other : RenderAreaInternal)
    (trace : List Call) (hgl : GDK_IS_GL_CONTEXT gl = true)
    (hinv : internal.msaa_invariant = true) (hother : other.msaa_invariant = true)
    (htasks : other.tasks = internal.tasks) :
    ∃ r r', on_render gl internal = Except.ok r ∧ on_render gl other = Except.ok r' ∧
      r.result = true ∧ r'.result = true ∧
      r.internal = internal ∧ r.internal.tasks = internal.tasks ∧
      user_renders r.calls = internal.tasks ∧
      user_renders r'.calls = user_renders r.calls ∧
      RenderArea.render_render_tasks ⟨internal, trace⟩ = internal.tasks.map GlCall.render ∧
      user_renders (RenderArea.render_render_tasks ⟨internal, trace⟩) = user_renders r.calls := by
  obtain ⟨r, hr, hres, hint, hcalls⟩ := on_render_ok gl internal hgl hinv
  obtain ⟨r', hr', hres', -, hcalls'⟩ := on_render_ok gl other hgl hother
  refine ⟨r, r', hr, hr', hres, hres', hint, by rw [hint], hcalls, ?_, rfl, ?_⟩
  · rw [hcalls, hcalls', htasks]
  · rw [hcalls]
    exact user_renders_render_tasks internal.tasks

/-- Witness of C14: the tasks at addresses 5, 6, 5 on a struct with multisampling and on one
without; both render 5, 6, 5. -/
theorem on_render_user_tasks_witness :
    ∃ r r',
      on_render ⟨some 1, true, 2, false, []⟩
          ⟨some 2, [some 5, some 6, some 5], true, some 10, some 11, some 12, some 13⟩ =
        Except.ok r ∧
      on_render ⟨some 1, true, 2, false, []⟩
          ⟨some 2, [some 5, some 6, some 5], false, none, none, none, none⟩ = Except.ok r' ∧
      user_renders r.calls = [some 5, some 6, some 5] ∧
      user_renders r'.calls = user_renders r.calls :=
  let ⟨r, r', h1, h2, _, _, _, _, h3, h4, _, _⟩ :=
    on_render_user_tasks ⟨some 1, true, 2, false, []⟩
      ⟨some 2, [some 5, some 6, some 5], true, some 10, some 11, some 12, some 13⟩
      ⟨some 2, [some 5, some 6, some 5], false, none, none, none, none⟩ [] rfl rfl rfl rfl
  ⟨r, r', h1, h2, h3, h4⟩

/-- C15: with multisampling (and a valid shared context, a render texture and a shape task),
the calls of `on_render` that concern the render target, clearing, rendering and flushing are:
bind the render texture, clear, render the user tasks, flush, unbind, clear, render the shape
task, flush.  The whole sequence splits at the one bind and the one unbind: no task is rendered
before the bind or after the unbind, all user tasks are rendered in between, and the shape task
is rendered once, after the unbind. -/
theorem on_render_msaa_shape (gl : GlState) (internal : RenderAreaInternal)
    (hgl : GDK_IS_GL_CONTEXT gl = true) (hmsaa : internal.apply_msaa = true)
    (texture shape_task : Nat) (ht : internal.render_texture = some texture)
    (hs : internal.render_texture_shape_task = some shape_task) :
    ∃ r, on_render gl internal = Except.ok r ∧
      render_shape_of r.calls =
        [GlCall.bind_as_render_target (some texture), GlCall.glClear] ++
          internal.tasks.map GlCall.render ++
          [GlCall.glFlush, GlCall.unbind_as_render_target (some texture), GlCall.glClear,
            GlCall.render_shape_task (some shape_task), GlCall.glFlush] ∧
      ∃ before during after,
        r.calls = before ++ [GlCall.bind_as_render_target (some texture)] ++ during ++
          [GlCall.unbind_as_render_target (some texture)] ++ after ∧
        (∀ t, GlCall.bind_as_render_target t ∉ before ++ during ++ after ∧
          GlCall.unbind_as_render_target t ∉ before ++ during ++ after) ∧
        user_renders before = [] ∧ user_renders during = internal.tasks ∧
        user_renders after = [] ∧
        (∀ t, GlCall.render_shape_task t ∉ before ++ during) ∧
        after.count (GlCall.render_shape_task (some shape_task)) = 1 ∧
        (∀ t, GlCall.render_shape_task t ∈ after → t = some shape_task) := by
  refine ⟨_, on_render_msaa gl internal hgl hmsaa texture shape_task ht hs, ?_,
    [GlCall.gtk_gl_area_make_current],
    [GlCall.glClear, GlCall.glClearColor, GlCall.glEnable, GlCall.set_current_blend_mode] ++
      render_tasks internal.tasks ++ [GlCall.glFlush],
    [GlCall.glClear, GlCall.glClearColor, GlCall.glEnable, GlCall.set_current_blend_mode,
      GlCall.render_shape_task (some shape_task), GlCall.glFlush], ?_, ?_, ?_, ?_, ?_, ?_, ?_, ?_⟩
  · simp only [render_shape_of, List.filter_append]
    rw [filter_render_tasks_eq_self _ (fun t => rfl)]
    rfl
  · simp
  · intro t
    simp [render_tasks]
  · rfl
  · simp [user_renders_append, user_renders_render_tasks, user_renders]
  · rfl
  · intro t
    simp [render_tasks]
  · simp
  · intro t h
    simpa using h

/-- Witness of C15: tasks at addresses 5 and 6, render texture at 10, shape task at 13. -/
theorem on_render_msaa_shape_witness :
    ∃ r,
      on_render ⟨some 1, true, 2, false, []⟩
          ⟨some 2, [some 5, some 6], true, some 10, some 11, some 12, some 13⟩ = Except.ok r ∧
      render_shape_of r.calls =
        [GlCall.bind_as_render_target (some 10), GlCall.glClear, GlCall.render (some 5),
          GlCall.render (some 6), GlCall.glFlush, GlCall.unbind_as_render_target (some 10),
          GlCall.glClear, GlCall.render_shape_task (some 13), GlCall.glFlush] :=
  let ⟨r, h1, h2, _⟩ :=
    on_render_msaa_shape ⟨some 1, true, 2, false, []⟩
      ⟨some 2, [some 5, some 6], true, some 10, some 11, some 12, some 13⟩ rfl rfl 10 13 rfl rfl
  ⟨r, h1, h2⟩

/-- With the invariant, `on_resize` does not dereference a null member, and when it returns the
internal struct is as it was. -/
theorem on_resize_safe (gl : GlState) (width height : Int) (internal : RenderAreaInternal)
    (hinv : internal.msaa_invariant = true) :
    on_resize gl width height internal ≠ Except.error Fault.null_dereference ∧
      ∀ r, on_resize gl width height internal = Except.ok r → r.internal = internal := by
  cases hgl : GDK_IS_GL_CONTEXT gl with
  | false => simp [on_resize, hgl]
  | true =>
    cases hmsaa : internal.apply_msaa with
    | false =>
      simp only [on_resize, hgl, hmsaa]
      refine ⟨by simp, fun r hr => ?_⟩
      cases hr
      rfl
    | true =>
      obtain ⟨texture, shape_task, ht, -⟩ := msaa_invariant_some internal hinv hmsaa
      simp only [on_resize, hgl, hmsaa, ht]
      refine ⟨by simp, fun r hr => ?_⟩
      cases hr
      rfl

/-- With the invariant, `on_render` does not dereference a null member, and when it returns the
internal struct is as it was. -/
theorem on_render_safe (gl : GlState) (internal : RenderAreaInternal)
    (hinv : internal.msaa_invariant = true) :
    on_render gl internal ≠ Except.error Fault.null_dereference ∧
      ∀ r, on_render gl internal = Except.ok r → r.internal = internal := by
  cases hgl : GDK_IS_GL_CONTEXT gl with
  | false => simp [on_render, hgl]
  | true =>
    obtain ⟨r, hr, -, hint, -⟩ := on_render_ok gl internal hgl hinv
    rw [hr]
    refine ⟨by simp, fun r' hr' => ?_⟩
    cases hr'
    exact hint

/-- C16: `render_area_internal_new` sets `apply_msaa` exactly when `msaa_samples > 0`, and then
the render texture, its shape and the shape's task are all non-null, while without multisampling
all three are null: the new struct has the invariant.  `add_render_task`, `clear_render_tasks`,
`on_resize` and `on_render` preserve the invariant, and under it `on_resize` and `on_render`
never dereference a null member. -/
theorem msaa_invariant_spec (area : Ptr) (msaa_samples : Int) (fresh : Allocation)
    (self : RenderArea) (task : Ptr) (gl : GlState) (width height : Int) :
    ((render_area_internal_new area msaa_samples fresh).apply_msaa = true ↔ msaa_samples > 0) ∧
      ((render_area_internal_new area msaa_samples fresh).apply_msaa = true ↔
        (render_area_internal_new area msaa_samples fresh).render_texture ≠ none ∧
          (render_area_internal_new area msaa_samples fresh).render_texture_shape ≠ none ∧
          (render_area_internal_new area msaa_samples fresh).render_texture_shape_task ≠ none) ∧
      ((render_area_internal_new area msaa_samples fresh).apply_msaa = false ↔
        (render_area_internal_new area msaa_samples fresh).render_texture = none ∧
          (render_area_internal_new area msaa_samples fresh).render_texture_shape = none ∧
          (render_area_internal_new area msaa_samples fresh).render_texture_shape_task = none) ∧
      (render_area_internal_new area msaa_samples fresh).msaa_invariant = true ∧
      (self._internal.msaa_invariant = true →
        (self.add_render_task task)._internal.msaa_invariant = true ∧
          self.clear_render_tasks._internal.msaa_invariant = true ∧
          (∀ r, on_resize gl width height self._internal = Except.ok r →
            r.internal.msaa_invariant = true) ∧
          (∀ r, on_render gl self._internal = Except.ok r → r.internal.msaa_invariant = true) ∧
          on_resize gl width height self._internal ≠ Except.error Fault.null_dereference ∧
          on_render gl self._internal ≠ Except.error Fault.null_dereference) := by
  refine ⟨?_, ?_, ?_, ?_, fun hinv => ⟨hinv, hinv, fun r hr => ?_, fun r hr => ?_, ?_, ?_⟩⟩
  · by_cases h : msaa_samples > 0 <;> simp [render_area_internal_new, h]
  · by_cases h : msaa_samples > 0 <;> simp [render_area_internal_new, h]
  · by_cases h : msaa_samples > 0 <;> simp [render_area_internal_new, h]
  · by_cases h : msaa_samples > 0 <;>
      simp [render_area_internal_new, RenderAreaInternal.msaa_invariant, h]
  · rw [(on_resize_safe gl width height self._internal hinv).2 r hr]
    exact hinv
  · rw [(on_render_safe gl self._internal hinv).2 r hr]
    exact hinv
  · exact (on_resize_safe gl width height self._internal hinv).1
  · exact (on_render_safe gl self._internal hinv).1

/-- Witness of C16: a struct made with four samples has the invariant, and so has the render
area after a task is added; `on_render` on it does not dereference a null member. -/
theorem msaa_invariant_spec_witness :
    (render_area_internal_new (some 2) 4 ⟨10, 11, 12, 13⟩).msaa_invariant = true ∧
      (RenderArea.add_render_task ⟨render_area_internal_new (some 2) 4 ⟨10, 11, 12, 13⟩, []⟩
        (some 5))._internal.msaa_invariant = true ∧
      on_render ⟨some 1, true, 2, false, []⟩ (render_area_internal_new (some 2) 4 ⟨10, 11, 12, 13⟩)
        ≠ Except.error Fault.null_dereference :=
  ⟨(msaa_invariant_spec (some 2) 4 ⟨10, 11, 12, 13⟩
      ⟨render_area_internal_new (some 2) 4 ⟨10, 11, 12, 13⟩, []⟩ (some 5)
      ⟨some 1, true, 2, false, []⟩ 640 480).2.2.2.1,
    ((msaa_invariant_spec (some 2) 4 ⟨10, 11, 12, 13⟩
      ⟨render_area_internal_new (some 2) 4 ⟨10, 11, 12, 13⟩, []⟩ (some 5)
      ⟨some 1, true, 2, false, []⟩ 640 480).2.2.2.2 (by decide)).1,
    ((msaa_invariant_spec (some 2) 4 ⟨10, 11, 12, 13⟩
      ⟨render_area_internal_new (some 2) 4 ⟨10, 11, 12, 13⟩, []⟩ (some 5)
      ⟨some 1, true, 2, false, []⟩ 640 480).2.2.2.2 (by decide)).2.2.2.2.2⟩

/-! ## The shared OpenGL context -/

/-- With a valid shared context on entry `initialize_opengl` returns it and changes nothing. -/
theorem initialize_opengl_of_valid (gl : GlState) (env : GdkEnv)
    (h : GDK_IS_GL_CONTEXT gl = true) :
    initialize_opengl gl env = some (gl.GL_CONTEXT, gl) := by
  simp [initialize_opengl, h]

/-- Without a valid shared context on entry, a run in which `gdk_display_create_gl_context` sets
an error reads the freed error: it has no defined result. -/
theorem initialize_opengl_of_create_error (gl : GlState) (env : GdkEnv)
    (h : GDK_IS_GL_CONTEXT gl = false) (message : String)
    (he : env.create_error = some message) : initialize_opengl gl env = none := by
  simp [initialize_opengl, h, he]

/-- Without a valid shared context on entry and without an error of
`gdk_display_create_gl_context`, `initialize_opengl` returns the context the toolkit created,
installs it with one reference more than it was created with, and sets `GL_INITIALIZED`, whatever
`gdk_gl_context_realize` and `glewInit` reported. -/
theorem initialize_opengl_of_invalid (gl : GlState) (env : GdkEnv)
    (h : GDK_IS_GL_CONTEXT gl = false) (he : env.create_error = none) :
    ∃ after, initialize_opengl gl env = some (env.created, after) ∧
      after.GL_CONTEXT = env.created ∧
      after.ref_count = (if env.created.isSome then 2 else 0) ∧
      after.GL_INITIALIZED = true := by
  simp only [initialize_opengl, h, Bool.not_false, if_true, he]
  cases hc : env.created <;> cases hf : env.created_floating <;>
    cases hr : env.realize_error <;>
    by_cases hg : env.glew_error = 0 <;>
    simp [GlState.call, g_object_ref_GL_CONTEXT, mark_gl_initialized, hg]

/-- The pointer `initialize_opengl` returns is the value of `GL_CONTEXT` after the call. -/
theorem initialize_opengl_fst (gl : GlState) (env : GdkEnv) (result : Ptr × GlState)
    (hresult : initialize_opengl gl env = some result) : result.1 = result.2.GL_CONTEXT := by
  cases h : GDK_IS_GL_CONTEXT gl with
  | true =>
    rw [initialize_opengl_of_valid gl env h] at hresult
    rw [← Option.some.inj hresult]
  | false =>
    cases he : env.create_error with
    | some message =>
      rw [initialize_opengl_of_create_error gl env h message he] at hresult
      cases hresult
    | none =>
      obtain ⟨after, hafter, h2, -⟩ := initialize_opengl_of_invalid gl env h he
      rw [hafter] at hresult
      rw [← Option.some.inj hresult, h2]

/-- With a valid shared context on entry, `on_create_context` returns it, adds one reference to
it and leaves the two globals as they were; the context is still valid. -/
theorem on_create_context_of_valid (gl : GlState) (env : GdkEnv)
    (h : GDK_IS_GL_CONTEXT gl = true) :
    ∃ after, on_create_context gl env = some (gl.GL_CONTEXT, after) ∧
      after.GL_CONTEXT = gl.GL_CONTEXT ∧
      after.ref_count = gl.ref_count + 1 ∧
      after.GL_INITIALIZED = gl.GL_INITIALIZED ∧
      after.calls =
        gl.calls ++
          [GlCall.g_object_ref gl.GL_CONTEXT, GlCall.gdk_gl_context_make_current gl.GL_CONTEXT] ∧
      GDK_IS_GL_CONTEXT after = true := by
  have hsome : gl.GL_CONTEXT.isSome = true := by
    simp only [GDK_IS_GL_CONTEXT, Bool.and_eq_true] at h
    exact h.1
  simp [on_create_context, initialize_opengl_of_valid gl env h, g_object_ref_GL_CONTEXT,
    GlState.call, hsome, GDK_IS_GL_CONTEXT]

/-- Without a valid shared context on entry, an `on_create_context` call in which the toolkit
creates a context without error returns that context and leaves it with three references: the
one it was created with, the one `initialize_opengl` takes and the one `on_create_context`
takes. -/
theorem on_create_context_of_invalid (gl : GlState) (env : GdkEnv)
    (h : GDK_IS_GL_CONTEXT gl = false) (he : env.create_error = none)
    (hc : env.created ≠ none) :
    ∃ after, on_create_context gl env = some (env.created, after) ∧
      after.GL_CONTEXT = env.created ∧
      after.ref_count = 3 ∧
      after.GL_INITIALIZED = true ∧
      GDK_IS_GL_CONTEXT after = true := by
  obtain ⟨mid, hmid, h2, h3, h4⟩ := initialize_opengl_of_invalid gl env h he
  have hs : env.created.isSome = true := Option.isSome_iff_ne_none.mpr hc
  rw [hs, if_pos rfl] at h3
  have hms : mid.GL_CONTEXT.isSome = true := by rw [h2]; exact hs
  simp [on_create_context, hmid, g_object_ref_GL_CONTEXT, GlState.call, hms, h2, h3, h4,
    GDK_IS_GL_CONTEXT, hs]

/-- A sequence of `on_create_context` calls entered with a valid shared context returns, keeps
the context and adds one reference per call. -/
theorem on_create_context_all_of_valid (envs : List GdkEnv) (gl : GlState)
    (h : GDK_IS_GL_CONTEXT gl = true) :
    ∃ after, on_create_context_all gl envs = some after ∧
      GDK_IS_GL_CONTEXT after = true ∧
      after.GL_CONTEXT = gl.GL_CONTEXT ∧
      after.ref_count = gl.ref_count + envs.length := by
  induction envs generalizing gl with
  | nil => exact ⟨gl, rfl, h, rfl, rfl⟩
  | cons env rest ih =>
    obtain ⟨next, hnext, h2, h3, -, -, h6⟩ := on_create_context_of_valid gl env h
    obtain ⟨after, hafter, i1, i2, i3⟩ := ih next h6
    refine ⟨after, ?_, i1, by rw [i2, h2], ?_⟩
    · rw [on_create_context_all, hnext]
      exact hafter
    · rw [i3, h3, List.length_cons]
      omega

/-- C17 (amended): with a valid shared context on entry `initialize_opengl` returns that context
and changes no state; so whenever a call returns and leaves a valid context (it found one, or
the toolkit created one without error), the next call returns the same context and changes
nothing, the reference count included.  Entered with a valid shared context, `on_create_context`
returns it and adds exactly one reference, on every call of a sequence.  The call of
`on_create_context` that creates the context returns it with three references: the one of its
creation, the one `initialize_opengl` takes and the one `on_create_context` takes. -/
theorem initialize_opengl_idempotent (gl : GlState) (env env' : GdkEnv) :
    (GDK_IS_GL_CONTEXT gl = true → initialize_opengl gl env = some (gl.GL_CONTEXT, gl)) ∧
      (∀ result : Ptr × GlState, initialize_opengl gl env = some result →
        GDK_IS_GL_CONTEXT result.2 = true →
        initialize_opengl result.2 env' = some result) ∧
      (GDK_IS_GL_CONTEXT gl = true ∨ (env.created ≠ none ∧ env.create_error = none) →
        ∃ result, initialize_opengl gl env = some result ∧
          GDK_IS_GL_CONTEXT result.2 = true ∧
          initialize_opengl result.2 env' = some result) ∧
      (GDK_IS_GL_CONTEXT gl = true →
        ∃ after, on_create_context gl env = some (gl.GL_CONTEXT, after) ∧
          after.GL_CONTEXT = gl.GL_CONTEXT ∧
          after.ref_count = gl.ref_count + 1 ∧
          after.GL_INITIALIZED = gl.GL_INITIALIZED ∧
          after.calls =
            gl.calls ++
              [GlCall.g_object_ref gl.GL_CONTEXT,
                GlCall.gdk_gl_context_make_current gl.GL_CONTEXT]) ∧
      (GDK_IS_GL_CONTEXT gl = true → ∀ envs : List GdkEnv,
        ∃ after last, on_create_context_all gl envs = some after ∧
          after.GL_CONTEXT = gl.GL_CONTEXT ∧
          after.ref_count = gl.ref_count + envs.length ∧
          on_create_context after env = some (gl.GL_CONTEXT, last) ∧
          last.ref_count = gl.ref_count + envs.length + 1) ∧
      (GDK_IS_GL_CONTEXT gl = false → env.create_error = none → env.created ≠ none →
        ∃ after, on_create_context gl env = some (env.created, after) ∧
          after.GL_CONTEXT = env.created ∧
          after.ref_count = 3 ∧
          ∀ envs : List GdkEnv, ∃ last, on_create_context_all after envs = some last ∧
            last.GL_CONTEXT = env.created ∧
            last.ref_count = 3 + envs.length) := by
  have hnext : ∀ result : Ptr × GlState, initialize_opengl gl env = some result →
      GDK_IS_GL_CONTEXT result.2 = true →
      initialize_opengl result.2 env' = some result := by
    intro result hresult hvalid
    rw [initialize_opengl_of_valid _ env' hvalid,
      ← initialize_opengl_fst gl env result hresult]
  refine ⟨initialize_opengl_of_valid gl env, hnext, fun h => ?_, fun h => ?_, fun h envs => ?_,
    fun h he hc => ?_⟩
  · cases hgl : GDK_IS_GL_CONTEXT gl with
    | true =>
      exact ⟨_, initialize_opengl_of_valid gl env hgl, hgl,
        hnext _ (initialize_opengl_of_valid gl env hgl) hgl⟩
    | false =>
      have hce : env.created ≠ none ∧ env.create_error = none := by
        rcases h with h | h
        · rw [hgl] at h; cases h
        · exact h
      obtain ⟨after, hafter, h2, h3, -⟩ := initialize_opengl_of_invalid gl env hgl hce.2
      have hs : env.created.isSome = true := Option.isSome_iff_ne_none.mpr hce.1
      have hvalid : GDK_IS_GL_CONTEXT after = true := by
        simp [GDK_IS_GL_CONTEXT, h2, h3, hs]
      exact ⟨_, hafter, hvalid, hnext _ hafter hvalid⟩
  · obtain ⟨after, h1, h2, h3, h4, h5, -⟩ := on_create_context_of_valid gl env h
    exact ⟨after, h1, h2, h3, h4, h5⟩
  · obtain ⟨after, k0, k1, k2, k3⟩ := on_create_context_all_of_valid envs gl h
    obtain ⟨last, l1, -, l3, -⟩ := on_create_context_of_valid after env k1
    exact ⟨after, last, k0, k2, k3, by rw [l1, k2], by rw [l3, k3]⟩
  · obtain ⟨after, h1, h2, h3, -, h5⟩ := on_create_context_of_invalid gl env h he hc
    refine ⟨after, h1, h2, h3, fun envs => ?_⟩
    obtain ⟨last, k0, -, k2, k3⟩ := on_create_context_all_of_valid envs after h5
    exact ⟨last, k0, by rw [k2, h2], by rw [k3, h3]⟩

/-- Witness of C17 (amended): no context on entry, the toolkit creates the context at address 7;
the next call of `initialize_opengl` returns the same context and changes nothing; two calls of
`on_create_context` on a valid context with two references leave four. -/
theorem initialize_opengl_idempotent_witness :
    (∃ result, initialize_opengl ⟨none, false, 0, false, []⟩ ⟨some 7, false, none, none, 0⟩ =
        some result ∧
      GDK_IS_GL_CONTEXT result.2 = true ∧
      initialize_opengl result.2 ⟨some 8, false, none, none, 0⟩ = some result) ∧
      (∃ after last, on_create_context_all ⟨some 7, true, 2, false, []⟩
          [⟨some 8, false, none, none, 0⟩, ⟨some 9, false, none, none, 0⟩] = some after ∧
        after.GL_CONTEXT = some 7 ∧
        after.ref_count = 2 + 2 ∧
        on_create_context after ⟨some 8, false, none, none, 0⟩ = some (some 7, last) ∧
        last.ref_count = 2 + 2 + 1) :=
  ⟨(initialize_opengl_idempotent ⟨none, false, 0, false, []⟩ ⟨some 7, false, none, none, 0⟩
      ⟨some 8, false, none, none, 0⟩).2.2.1 (Or.inr ⟨by decide, rfl⟩),
    (initialize_opengl_idempotent ⟨some 7, true, 2, false, []⟩ ⟨some 8, false, none, none, 0⟩
      ⟨some 8, false, none, none, 0⟩).2.2.2.2.1 rfl
      [⟨some 8, false, none, none, 0⟩, ⟨some 9, false, none, none, 0⟩]⟩

/-- Counterexample to C17 as stated: there is no context yet and the toolkit creates the context
at address 7 without error.  This call of `on_create_context` makes two `g_object_ref` calls on
the context, one inside `initialize_opengl` and one of its own, and leaves it with three
references: it does not add exactly one. -/
theorem on_create_context_first_call_counterexample :
    on_create_context ⟨none, false, 0, false, []⟩ ⟨some 7, false, none, none, 0⟩ =
        some (some 7, ⟨some 7, true, 3, false,
          [GlCall.gdk_display_create_gl_context,
            GlCall.gdk_gl_context_set_required_version (some 7) 3 3,
            GlCall.gdk_gl_context_realize (some 7),
            GlCall.gdk_gl_context_make_current (some 7),
            GlCall.glewInit,
            GlCall.g_object_ref (some 7),
            GlCall.mark_gl_initialized,
            GlCall.g_object_ref (some 7),
            GlCall.gdk_gl_context_make_current (some 7)]⟩) ∧
      List.count (GlCall.g_object_ref (some 7))
          [GlCall.gdk_display_create_gl_context,
            GlCall.gdk_gl_context_set_required_version (some 7) 3 3,
            GlCall.gdk_gl_context_realize (some 7),
            GlCall.gdk_gl_context_make_current (some 7),
            GlCall.glewInit,
            GlCall.g_object_ref (some 7),
            GlCall.mark_gl_initialized,
            GlCall.g_object_ref (some 7),
            GlCall.gdk_gl_context_make_current (some 7)] ≠ 1 := by
  decide

/-- C18 (the code at the failing input): no context on entry, the toolkit creates the context at
address 7 and `gdk_gl_context_realize` sets the error `no GL`.  The critical message is logged,
and the run goes on to `mark_gl_initialized`: `GL_INITIALIZED` is set all the same. -/
theorem initialize_opengl_marks_after_error :
    initialize_opengl ⟨none, false, 0, false, []⟩ ⟨some 7, false, none, some "no GL", 0⟩ =
      some (some 7,
        { GL_CONTEXT := some 7
          GL_INITIALIZED := true
          ref_count := 2
          floating := false
          calls :=
            [GlCall.gdk_display_create_gl_context,
              GlCall.gdk_gl_context_set_required_version (some 7) 3 3,
              GlCall.gdk_gl_context_realize (some 7),
              GlCall.log_critical "In gdk_gl_context_realize: no GL",
              GlCall.gdk_gl_context_make_current (some 7),
              GlCall.glewInit,
              GlCall.g_object_ref (some 7),
              GlCall.mark_gl_initialized] }) := by
  decide

/-- The loop of `shutdown_opengl` releases every reference of a context and does nothing when
`GL_CONTEXT` is null. -/
theorem shutdown_opengl_loop_eq (gl : GlState) :
    shutdown_opengl_loop gl =
      if gl.GL_CONTEXT.isSome then
        { gl with
          ref_count := 0
          calls := gl.calls ++ List.replicate gl.ref_count (GlCall.g_object_unref gl.GL_CONTEXT) }
      else gl := by
  generalize hn : gl.ref_count = n
  induction n generalizing gl with
  | zero =>
    rw [shutdown_opengl_loop, if_neg (by simp [GDK_IS_GL_CONTEXT, hn])]
    obtain ⟨c, i, r, f, calls⟩ := gl
    simp only at hn
    subst hn
    split_ifs <;> simp
  | succ n ih =>
    cases hc : gl.GL_CONTEXT with
    | none =>
      rw [shutdown_opengl_loop, if_neg (by simp [GDK_IS_GL_CONTEXT, hc])]
      simp
    | some c =>
      rw [shutdown_opengl_loop, if_pos (by simp [GDK_IS_GL_CONTEXT, hc, hn]),
        ih (g_object_unref_GL_CONTEXT gl) (by simp [g_object_unref_GL_CONTEXT, GlState.call, hn])]
      simp [g_object_unref_GL_CONTEXT, GlState.call, hc, hn, List.replicate_succ]

/-- C19: `shutdown_opengl` is defined on every state, so it returns whatever the reference count
of the shared context; its loop runs once per reference of a non-null context and not at all
for a null one; on return `GL_CONTEXT` is null, `GL_INITIALIZED` is false and there is no valid
context. -/
theorem shutdown_opengl_spec (gl : GlState) :
    (shutdown_opengl gl).GL_CONTEXT = none ∧
      (shutdown_opengl gl).GL_INITIALIZED = false ∧
      GDK_IS_GL_CONTEXT (shutdown_opengl gl) = false ∧
      (shutdown_opengl gl).ref_count = (if gl.GL_CONTEXT.isSome then 0 else gl.ref_count) ∧
      (shutdown_opengl gl).calls =
        gl.calls ++
          (if gl.GL_CONTEXT.isSome then
            List.replicate gl.ref_count (GlCall.g_object_unref gl.GL_CONTEXT)
          else []) ∧
      GDK_IS_GL_CONTEXT (shutdown_opengl_loop gl) = false := by
  refine ⟨rfl, rfl, rfl, ?_, ?_, ?_⟩
  · simp only [shutdown_opengl, shutdown_opengl_loop_eq]
    split_ifs <;> rfl
  · simp only [shutdown_opengl, shutdown_opengl_loop_eq]
    split_ifs <;> simp
  · rw [shutdown_opengl_loop_eq]
    cases hc : gl.GL_CONTEXT <;> simp [GDK_IS_GL_CONTEXT, hc]

/-! ## The references held by the widget cache -/

theorem ptr_rank_injective (p q : Ptr) (h : ptr_rank p = ptr_rank q) : p = q := by
  cases p <;> cases q <;> simp [ptr_rank] at h ⊢
  exact h

/-- Every entry of the map after `insert_or_assign` is an old entry or the new one. -/
theorem StdMap.mem_insert_or_assign (m : StdMap) (key value : Ptr) (e : Ptr × Ptr)
    (h : e ∈ StdMap.insert_or_assign m key value) : e ∈ m ∨ e = (key, value) := by
  induction m with
  | nil =>
    simp only [StdMap.insert_or_assign, List.mem_singleton] at h
    exact Or.inr h
  | cons head rest ih =>
    obtain ⟨k, v⟩ := head
    unfold StdMap.insert_or_assign at h
    split_ifs at h with h1 h2
    · rcases List.mem_cons.mp h with h | h
      · exact Or.inr h
      · exact Or.inl (List.mem_cons_of_mem _ h)
    · rcases List.mem_cons.mp h with h | h
      · exact Or.inr h
      · exact Or.inl h
    · rcases List.mem_cons.mp h with h | h
      · exact Or.inl (h ▸ List.mem_cons_self _ _)
      · rcases ih h with h | h
        · exact Or.inl (List.mem_cons_of_mem _ h)
        · exact Or.inr h

/-- A key below all keys of the map is not found. -/
theorem StdMap.find_eq_none_of_lt (m : StdMap) (key : Ptr)
    (h : ∀ e ∈ m, ptr_rank key < ptr_rank e.1) : StdMap.find m key = none := by
  induction m with
  | nil => rfl
  | cons head rest ih =>
    obtain ⟨k, v⟩ := head
    have hk : k ≠ key := by
      intro hk
      have := h (k, v) (List.mem_cons_self _ _)
      rw [hk] at this
      exact Nat.lt_irrefl _ this
    simp only [StdMap.find, if_neg hk]
    exact ih (fun e he => h e (List.mem_cons_of_mem _ he))

/-- `insert_or_assign` keeps the keys of the map strictly increasing. -/
theorem StdMap.ordered_insert_or_assign (m : StdMap) (key value : Ptr) (h : m.ordered) :
    (StdMap.insert_or_assign m key value).ordered := by
  induction m with
  | nil => simp [StdMap.insert_or_assign, StdMap.ordered]
  | cons head rest ih =>
    obtain ⟨k, v⟩ := head
    unfold StdMap.ordered at h ih ⊢
    obtain ⟨hhead, hrest⟩ := List.pairwise_cons.mp h
    unfold StdMap.insert_or_assign
    split_ifs with h1 h2
    · subst h1
      exact List.pairwise_cons.mpr ⟨hhead, hrest⟩
    · refine List.pairwise_cons.mpr ⟨fun e he => ?_, h⟩
      rcases List.mem_cons.mp he with he | he
      · rw [he]; exact h2
      · exact Nat.lt_trans h2 (hhead e he)
    · refine List.pairwise_cons.mpr ⟨fun e he => ?_, ih hrest⟩
      rcases StdMap.mem_insert_or_assign rest key value e he with he | he
      · exact hhead e he
      · rw [he]
        have hne : ptr_rank k ≠ ptr_rank key := fun hr => h1 (ptr_rank_injective _ _ hr)
        show ptr_rank k < ptr_rank key
        omega

/-- Entries mapped to a widget in a map with one more entry in front. -/
theorem StdMap.cells_mapped_to_cons (k v widget : Ptr) (rest : StdMap) :
    StdMap.cells_mapped_to ((k, v) :: rest) widget =
      StdMap.cells_mapped_to rest widget + (if v = widget then 1 else 0) := by
  unfold StdMap.cells_mapped_to
  rw [List.countP_cons]
  by_cases hv : v = widget <;> simp [hv]

/-- In an ordered map, `insert_or_assign` replaces the value found for the key, if any, by the
new value and leaves all other entries: the entries mapped to a widget, counted with the
replaced value, are the old ones counted with the new value. -/
theorem StdMap.cells_insert_or_assign (m : StdMap) (key value widget : Ptr) (h : m.ordered) :
    (StdMap.insert_or_assign m key value).cells_mapped_to widget +
        (match StdMap.find m key with
          | some old => if old = widget then 1 else 0
          | none => 0) =
      m.cells_mapped_to widget + (if value = widget then 1 else 0) := by
  induction m with
  | nil =>
    simp only [StdMap.insert_or_assign, StdMap.find, StdMap.cells_mapped_to_cons]
    omega
  | cons head rest ih =>
    obtain ⟨k, v⟩ := head
    unfold StdMap.ordered at h ih
    obtain ⟨hhead, hrest⟩ := List.pairwise_cons.mp h
    by_cases h1 : k = key
    · simp only [StdMap.insert_or_assign, StdMap.find, if_pos h1, StdMap.cells_mapped_to_cons]
      omega
    · by_cases h2 : ptr_rank key < ptr_rank k
      · have hnone : StdMap.find ((k, v) :: rest) key = none :=
          StdMap.find_eq_none_of_lt _ _ (fun e he => by
            rcases List.mem_cons.mp he with he | he
            · rw [he]; exact h2
            · exact Nat.lt_trans h2 (hhead e he))
        rw [hnone]
        simp only [StdMap.insert_or_assign, if_neg h1, if_pos h2, StdMap.cells_mapped_to_cons]
        omega
      · have hrec := ih hrest
        simp only [StdMap.insert_or_assign, StdMap.find, if_neg h1, if_neg h2,
          StdMap.cells_mapped_to_cons]
        omega

theorem cells_of_rows_append (rows₁ rows₂ : List ColumnViewRowItem) (widget : Ptr) :
    cells_of_rows (rows₁ ++ rows₂) widget =
      cells_of_rows rows₁ widget + cells_of_rows rows₂ widget := by
  simp [cells_of_rows]

/-- Rows made by `column_view_row_item_new` have no cell. -/
theorem cells_of_rows_replicate_new (n : Nat) (widget : Ptr) :
    cells_of_rows (List.replicate n column_view_row_item_new) widget = 0 := by
  induction n with
  | zero => rfl
  | succ n ih =>
    rw [List.replicate_succ]
    simp only [cells_of_rows, List.map_cons, List.sum_cons] at ih ⊢
    rw [ih]
    rfl

/-- The rows the row loop of `set_widget_at` appends add no cell. -/
theorem cells_of_rows_rows_completed (row_i : Nat) (rows : List ColumnViewRowItem)
    (widget : Ptr) :
    cells_of_rows (rows_completed row_i rows) widget = cells_of_rows rows widget := by
  rw [rows_completed, cells_of_rows_append, cells_of_rows_replicate_new, Nat.add_zero]

/-- Replacing row `i` exchanges the cells of the old row for the cells of the new one. -/
theorem cells_of_rows_set (rows : List ColumnViewRowItem) (i : Nat)
    (old new : ColumnViewRowItem) (widget : Ptr) (h : rows[i]? = some old) :
    cells_of_rows (rows.set i new) widget + old.widgets.cells_mapped_to widget =
      cells_of_rows rows widget + new.widgets.cells_mapped_to widget := by
  induction rows generalizing i with
  | nil => simp at h
  | cons head rest ih =>
    cases i with
    | zero =>
      simp only [List.getElem?_cons_zero, Option.some.injEq] at h
      subst h
      simp only [List.set_cons_zero, cells_of_rows, List.map_cons, List.sum_cons]
      omega
    | succ i =>
      simp only [List.getElem?_cons_succ] at h
      have := ih i h
      simp only [List.set_cons_succ, cells_of_rows, List.map_cons, List.sum_cons] at this ⊢
      omega

/-- The rows the row loop of `set_widget_at` appends keep every map ordered. -/
theorem ordered_rows_completed (row_i : Nat) (rows : List ColumnViewRowItem)
    (h : ∀ item ∈ rows, item.widgets.ordered) :
    ∀ item ∈ rows_completed row_i rows, item.widgets.ordered := by
  intro item hitem
  rw [rows_completed] at hitem
  rcases List.mem_append.mp hitem with hitem | hitem
  · exact h item hitem
  · rw [List.eq_of_mem_replicate hitem]
    simp [column_view_row_item_new, StdMap.ordered]

/-- The calls `set_widget_at` has made when it returns for a column with a native object: one
`g_object_unref` on the widget the cell held, if it held one, then one `g_object_ref` on the new
widget. -/
theorem set_widget_at_trace (self after : ColumnView) (a : Nat) (row_i : Nat) (widget : Widget)
    (fuel : Nat) (hrows : self.list_store.length < 2 ^ 32)
    (hafter : self.set_widget_at (Column.mk (some a)) row_i widget fuel = some after) :
    after.trace =
      self.trace ++
        (match self.cell row_i (some a) with
          | some old => [Call.g_object_unref old]
          | none => []) ++
        [Call.g_object_ref widget.native] := by
  obtain ⟨-, item, hitem, -, htrace, -⟩ :=
    set_widget_at_some self after a row_i widget fuel hrows hafter
  have hcell : self.cell row_i (some a) = item.widgets.find (some a) := by
    simp only [ColumnView.cell]
    by_cases hr : row_i < self.list_store.length
    · rw [rows_completed_getElem?_old _ _ _ hr] at hitem
      rw [hitem, Option.some_bind]
    · have hnone : self.list_store[row_i]? = none := List.getElem?_eq_none_iff.mpr (by omega)
      rw [rows_completed_getElem?_new _ _ _ (by omega) le_rfl] at hitem
      cases hitem
      rw [hnone]
      rfl
  rw [htrace, hcell]
  cases item.widgets.find (some a) <;> simp

/-- A `set_widget_at` call that returns keeps the list store below `2 ^ 32` rows. -/
theorem set_widget_at_length (self after : ColumnView) (column : Column) (row_i : Nat)
    (widget : Widget) (fuel : Nat) (hrows : self.list_store.length < 2 ^ 32)
    (hafter : self.set_widget_at column row_i widget fuel = some after) :
    after.list_store.length < 2 ^ 32 := by
  obtain ⟨native⟩ := column
  cases native with
  | none =>
    simp only [ColumnView.set_widget_at, Option.some.injEq] at hafter
    rw [← hafter]
    exact hrows
  | some a =>
    obtain ⟨hrow, item, -, -, -, hlength⟩ :=
      set_widget_at_some self after a row_i widget fuel hrows hafter
    rw [hlength]
    omega

/-- A `set_widget_at` call that returns keeps the references of the cache balanced. -/
theorem cache_balanced_set_widget_at (self after : ColumnView) (column : Column) (row_i : Nat)
    (widget : Widget) (fuel : Nat) (hrows : self.list_store.length < 2 ^ 32)
    (h : self.cache_balanced)
    (hafter : self.set_widget_at column row_i widget fuel = some after) :
    after.cache_balanced := by
  obtain ⟨native⟩ := column
  cases native with
  | none =>
    simp only [ColumnView.set_widget_at, Option.some.injEq] at hafter
    rw [← hafter]
    refine ⟨h.1, fun w => ?_⟩
    have := h.2 w
    simp only [ColumnView.cells_mapped_to] at this ⊢
    simp only [List.count_append, List.count_singleton']
    simpa using this
  | some a =>
    obtain ⟨-, item, hitem, hstore, htrace, -⟩ :=
      set_widget_at_some self after a row_i widget fuel hrows hafter
    have hord := ordered_rows_completed row_i self.list_store h.1
    have hitem_ord : item.widgets.ordered := hord item (List.getElem?_mem hitem)
    refine ⟨fun it hit => ?_, fun w => ?_⟩
    · rw [hstore] at hit
      rcases List.mem_or_eq_of_mem_set hit with hit | hit
      · exact hord it hit
      · rw [hit]
        exact StdMap.ordered_insert_or_assign _ _ _ hitem_ord
    · have hbal := h.2 w
      have hcells := cells_of_rows_set (rows_completed row_i self.list_store) row_i item
        { widgets := item.widgets.insert_or_assign (some a) widget.native } w hitem
      rw [cells_of_rows_rows_completed] at hcells
      dsimp only at hcells
      have hmap := StdMap.cells_insert_or_assign item.widgets (some a) widget.native w hitem_ord
      simp only [ColumnView.cells_mapped_to, hstore, htrace] at hbal ⊢
      cases hfind : item.widgets.find (some a) with
      | none =>
        rw [hfind] at hmap
        simp only [List.count_append, List.count_singleton', Call.g_object_ref.injEq,
          reduceCtorEq, if_false] at hmap ⊢
        omega
      | some old =>
        rw [hfind] at hmap
        simp only [List.count_append, List.count_singleton', Call.g_object_ref.injEq,
          Call.g_object_unref.injEq, reduceCtorEq, if_false] at hmap ⊢
        omega

/-- Every sequence of `set_widget_at` calls that returns keeps the references of the cache
balanced and the list store below `2 ^ 32` rows. -/
theorem cache_balanced_set_widget_at_all (calls : List (Column × Nat × Widget))
    (self after : ColumnView) (fuel : Nat) (hrows : self.list_store.length < 2 ^ 32)
    (h : self.cache_balanced) (hafter : self.set_widget_at_all calls fuel = some after) :
    after.cache_balanced ∧ after.list_store.length < 2 ^ 32 := by
  induction calls generalizing self with
  | nil =>
    simp only [ColumnView.set_widget_at_all, Option.some.injEq] at hafter
    rw [← hafter]
    exact ⟨h, hrows⟩
  | cons call rest ih =>
    rw [ColumnView.set_widget_at_all] at hafter
    cases hcall : self.set_widget_at call.1 call.2.1 call.2.2 fuel with
    | none => simp [hcall] at hafter
    | some next =>
      rw [hcall] at hafter
      exact ih next
        (set_widget_at_length self next call.1 call.2.1 call.2.2 fuel hrows hcall)
        (cache_balanced_set_widget_at self next call.1 call.2.1 call.2.2 fuel hrows h hcall)
        hafter

/-- A sequence of `set_widget_at` calls whose row indices are all below `2 ^ 32 - 1` returns, on
a list store of fewer than `2 ^ 32` rows, once the condition of the row loop may be tested
`2 ^ 32` times in each call. -/
theorem set_widget_at_all_returns (calls : List (Column × Nat × Widget)) (self : ColumnView)
    (fuel : Nat) (hrows : self.list_store.length < 2 ^ 32)
    (hcalls : ∀ call ∈ calls, call.2.1 < 2 ^ 32 - 1) (hfuel : 2 ^ 32 ≤ fuel) :
    ∃ after, self.set_widget_at_all calls fuel = some after := by
  induction calls generalizing self with
  | nil => exact ⟨self, rfl⟩
  | cons call rest ih =>
    have hrow : call.2.1 < 2 ^ 32 - 1 := hcalls call (List.mem_cons_self _ _)
    have hnext : ∃ next, self.set_widget_at call.1 call.2.1 call.2.2 fuel = some next := by
      obtain ⟨⟨native⟩, row_i, widget⟩ := call
      dsimp only at hrow
      cases native with
      | none => exact ⟨_, rfl⟩
      | some a => exact set_widget_at_returns self a row_i widget fuel hrows hrow (by omega)
    obtain ⟨next, hnext⟩ := hnext
    obtain ⟨after, hafter⟩ := ih next
      (set_widget_at_length self next call.1 call.2.1 call.2.2 fuel hrows hnext)
      (fun c hc => hcalls c (List.mem_cons_of_mem _ hc))
    exact ⟨after, by rw [ColumnView.set_widget_at_all, hnext]; exact hafter⟩

/-- The finalizer of a row item releases one reference per cell of the row: as many on each
widget as the row has cells mapped to it, and it takes none. -/
theorem column_view_row_item_finalize_count (item : ColumnViewRowItem) (widget : Ptr) :
    (column_view_row_item_finalize item).count (Call.g_object_unref widget) =
        item.widgets.cells_mapped_to widget ∧
      (column_view_row_item_finalize item).length = item.widgets.length ∧
      (column_view_row_item_finalize item).count (Call.g_object_ref widget) = 0 := by
  obtain ⟨widgets⟩ := item
  simp only [column_view_row_item_finalize]
  refine ⟨?_, List.length_map _ _, ?_⟩
  · induction widgets with
    | nil => rfl
    | cons head rest ih =>
      obtain ⟨k, v⟩ := head
      rw [List.map_cons, List.count_cons, ih, StdMap.cells_mapped_to_cons]
      by_cases hv : v = widget <;> simp [hv]
  · induction widgets with
    | nil => rfl
    | cons head rest ih =>
      rw [List.map_cons, List.count_cons, ih]
      simp

/-- C21: the widget cache keeps its references balanced.  Starting from a balanced cache of fewer
than `2 ^ 32` rows (every map ordered and, for each widget, as many `g_object_ref` calls as
`g_object_unref` calls plus cells mapped to it; a view without rows and without calls is one),
after every sequence of `set_widget_at` calls that has returned the references taken and not
released on a widget are as many as the (row, column) cells mapped to it; and the sequence does
return when all its row indices are below `2 ^ 32 - 1`.  A call for a column with a native object
releases exactly one reference on the widget the cell held, if it held one, and then takes
exactly one on the new widget, also when both are the same widget.  The finalizer of a row item
releases exactly one reference per cell of the row, so finalizing all rows releases what the
cache holds. -/
theorem widget_cache_balanced (self : ColumnView) (h : self.cache_balanced)
    (hrows : self.list_store.length < 2 ^ 32) (calls : List (Column × Nat × Widget))
    (fuel : Nat) (after : ColumnView) (hafter : self.set_widget_at_all calls fuel = some after)
    (widget : Ptr) :
    after.trace.count (Call.g_object_ref widget) =
        after.trace.count (Call.g_object_unref widget) + after.cells_mapped_to widget ∧
      after.cache_balanced ∧
      ((∀ call ∈ calls, call.2.1 < 2 ^ 32 - 1) → ∀ enough : Nat, 2 ^ 32 ≤ enough →
        ∃ returned, self.set_widget_at_all calls enough = some returned) ∧
      (∀ (a row_i : Nat) (w : Widget) (tests : Nat) (next : ColumnView),
        self.set_widget_at (Column.mk (some a)) row_i w tests = some next →
        next.trace =
          self.trace ++
            (match self.cell row_i (some a) with
              | some old => [Call.g_object_unref old]
              | none => []) ++
            [Call.g_object_ref w.native]) ∧
      (∀ (a row_i : Nat) (w : Widget) (tests : Nat) (next : ColumnView),
        self.cell row_i (some a) = some w.native →
        self.set_widget_at (Column.mk (some a)) row_i w tests = some next →
        next.trace =
          self.trace ++ [Call.g_object_unref w.native, Call.g_object_ref w.native]) ∧
      (∀ item : ColumnViewRowItem,
        (column_view_row_item_finalize item).count (Call.g_object_unref widget) =
            item.widgets.cells_mapped_to widget ∧
          (column_view_row_item_finalize item).length = item.widgets.length ∧
          (column_view_row_item_finalize item).count (Call.g_object_ref widget) = 0) ∧
      ((after.list_store.map
          (fun item => (column_view_row_item_finalize item).count
            (Call.g_object_unref widget))).sum =
        after.cells_mapped_to widget) ∧
      (∀ (columns : List GtkColumnViewColumn) (rows columns_shown : Bool),
        (ColumnView.mk columns [] rows columns_shown []).cache_balanced) := by
  have hall := (cache_balanced_set_widget_at_all calls self after fuel hrows h hafter).1
  refine ⟨hall.2 widget, hall,
    fun hcalls enough henough => set_widget_at_all_returns calls self enough hrows hcalls henough,
    fun a row_i w tests next hnext => set_widget_at_trace self next a row_i w tests hrows hnext,
    fun a row_i w tests next hcell hnext => ?_,
    fun item => column_view_row_item_finalize_count item widget, ?_, fun _ _ _ => ?_⟩
  · rw [set_widget_at_trace self next a row_i w tests hrows hnext, hcell, List.append_assoc]
    rfl
  · simp only [ColumnView.cells_mapped_to, cells_of_rows]
    congr 1
    exact List.map_congr_left
      (fun item _ => (column_view_row_item_finalize_count item widget).1)
  · exact ⟨fun item hitem => by simp at hitem, fun w => rfl⟩

/-- Witness of C21: on a new view, widget 7 is set at row 0 of column 1 twice, then at row 1 of
column 2, then widget 9 replaces it at row 0 of column 1; the calls return, and the references
taken on widget 7 are those released plus the cells mapped to it. -/
theorem widget_cache_balanced_witness :
    ColumnView.set_widget_at_all ⟨[], [], false, false, []⟩
        [(⟨some 1⟩, 0, ⟨some 7⟩), (⟨some 1⟩, 0, ⟨some 7⟩), (⟨some 2⟩, 1, ⟨some 7⟩),
          (⟨some 1⟩, 0, ⟨some 9⟩)] 2 =
        some ⟨[], [⟨[(some 1, some 9)]⟩, ⟨[(some 2, some 7)]⟩], false, false,
          [Call.g_object_ref (some 7), Call.g_object_unref (some 7), Call.g_object_ref (some 7),
            Call.g_object_ref (some 7), Call.g_object_unref (some 7),
            Call.g_object_ref (some 9)]⟩ ∧
      List.count (Call.g_object_ref (some 7))
          [Call.g_object_ref (some 7), Call.g_object_unref (some 7), Call.g_object_ref (some 7),
            Call.g_object_ref (some 7), Call.g_object_unref (some 7),
            Call.g_object_ref (some 9)] =
        List.count (Call.g_object_unref (some 7))
            [Call.g_object_ref (some 7), Call.g_object_unref (some 7),
              Call.g_object_ref (some 7), Call.g_object_ref (some 7),
              Call.g_object_unref (some 7), Call.g_object_ref (some 9)] +
          ColumnView.cells_mapped_to
            ⟨[], [⟨[(some 1, some 9)]⟩, ⟨[(some 2, some 7)]⟩], false, false,
              [Call.g_object_ref (some 7), Call.g_object_unref (some 7),
                Call.g_object_ref (some 7), Call.g_object_ref (some 7),
                Call.g_object_unref (some 7), Call.g_object_ref (some 9)]⟩ (some 7) :=
  ⟨by decide,
    (widget_cache_balanced ⟨[], [], false, false, []⟩
      ⟨fun item hitem => by simp at hitem, fun _ => rfl⟩ (by decide)
      [(⟨some 1⟩, 0, ⟨some 7⟩), (⟨some 1⟩, 0, ⟨some 7⟩), (⟨some 2⟩, 1, ⟨some 7⟩),
        (⟨some 1⟩, 0, ⟨some 9⟩)] 2
      ⟨[], [⟨[(some 1, some 9)]⟩, ⟨[(some 2, some 7)]⟩], false, false,
        [Call.g_object_ref (some 7), Call.g_object_unref (some 7), Call.g_object_ref (some 7),
          Call.g_object_ref (some 7), Call.g_object_unref (some 7),
          Call.g_object_ref (some 9)]⟩ (by decide) (some 7)).1⟩

end mousetrap
